import Mathlib

/-!
# The streaming generation session of `PromptOptimizer.js`

A shallow embedding of the React component `PromptOptimizer`
(`src/src/components/PromptOptimizer.js`): its state hooks, the reference
`abortControllerRef`, the handlers `resetState`, `handleCancel`,
`handleGenerationCancel`, and the body of `handleSubmit` with its
`for await` loop over the event stream.

Conventions of the embedding.

* Every `useState` cell is a field of `OptimizerState`; a setter call is a
  record update, performed in program order (`setX(prev => prev + t)` is an
  update of the latest value).
* `abortControllerRef.current` is the field `abortController`.
* `message.error` / `message.warning` calls are appended to `notices`.
* The parent callback `onCancel()` and the antd form instance
  (`form.resetFields()`) live outside the component state and are not part
  of `OptimizerState`; `console.error` is not recorded.
* `JSON.parse` is a JavaScript builtin: the loop is parametrised by a
  function `parse` that gives what the loop observes of
  `JSON.parse(event.data)`.
* `handleSubmit` is an async closure: the identifier `isDeepReasoning` it
  reads in its `catch (e)` branch is the binding of the render in which the
  handler was created, i.e. the value the state had when the form was
  submitted.  It is the parameter `captured` of the loop.
-/

namespace PromptOptimizer

/-! ## Data model -/

/-- An `AbortController`; `aborted` is `signal.aborted`. -/
structure AbortController where
  aborted : Bool
  deriving DecidableEq, Repr

/-- A call of the antd `message` API. -/
inductive Notice where
  | error (text : String)
  | warning (text : String)
  | success (text : String)
  deriving DecidableEq, Repr

/-- The hooks of the component (lines 39-54) that the session touches. -/
structure OptimizerState where
  step : Nat
  isGenerating : Bool
  generatedPrompt : String
  deepReasoningContent : String
  evaluationContent : String
  isDeepReasoning : Bool
  isEvaluating : Bool
  abortController : Option AbortController
  notices : List Notice
  deriving DecidableEq, Repr

/-- The state of a freshly mounted component (the `useState` / `useRef` initial values). -/
def initialState : OptimizerState :=
  { step := 0, isGenerating := false, generatedPrompt := "", deepReasoningContent := "",
    evaluationContent := "", isDeepReasoning := false, isEvaluating := false,
    abortController := none, notices := [] }

/-- One item yielded by the generate function: `event.event` and `event.data`. -/
structure StreamEvent where
  event : Option String
  data : Option String
  deriving DecidableEq, Repr

/-- The property reads the loop performs on a decoded value `data`.
`type` is `data.type` when that is a string (`none` otherwise, so no `===` test
succeeds); `message` and `error` are `none` when the property is falsy and
`some t` when it is truthy, `t` being the text that string concatenation
yields for it; `done` is the truthiness of `data.done`. -/
structure Frame where
  type : Option String
  message : Option String
  error : Option String
  done : Bool
  deriving DecidableEq, Repr

/-- What the `try` block observes of `JSON.parse(event.data)`. -/
inductive Decoded where
  /-- `JSON.parse` throws a `SyntaxError`. -/
  | syntaxError
  /-- `JSON.parse` returns `null`; the first property read `data.type` throws a `TypeError`. -/
  | nullValue
  /-- `JSON.parse` returns a value whose properties can be read. -/
  | value (f : Frame)
  deriving DecidableEq, Repr

/-- The values antd hands to `onFinish` (a missing field is `none`).  `modelId` is the
`value` of the option picked in the custom-model select, `model.id`, a number
(`app/types/model.ts`). -/
structure FormValues where
  prompt : Option String
  requirements : Option String
  enableDeepReasoning : Option Bool
  modelId : Option Int
  chatModel : Option String
  optimizationType : Option String
  deriving DecidableEq, Repr

/-- How the async iteration of the generate function ends after its last event. -/
inductive StreamEnd where
  /-- The generator returns: the `for await` loop finishes normally. -/
  | returned
  /-- The generator throws an error whose `name` is the given string. -/
  | threw (name : String)
  deriving DecidableEq, Repr

/-! ## Handlers -/

/-- Lines 110-113 and 128-131: `if (ref.current) { ref.current.abort(); ref.current = null; }`.
The aborted controller is dropped with the reference. -/
def abortAndClear (c : OptimizerState) : OptimizerState :=
  match c.abortController with
  | some _ => { c with abortController := none }
  | none => c

/-- Lines 101-114: `resetState`. -/
def resetState (c : OptimizerState) : OptimizerState :=
  abortAndClear
    { c with step := 0, generatedPrompt := "", deepReasoningContent := "",
             evaluationContent := "", isDeepReasoning := false, isEvaluating := false,
             isGenerating := false }

/-- Lines 117-124: `handleCancel`. -/
def handleCancel (c : OptimizerState) : OptimizerState :=
  if c.isGenerating then
    { c with notices := c.notices ++ [Notice.warning "正在生成中，无法关闭"] }
  else
    resetState c

/-- Lines 127-134: `handleGenerationCancel`. -/
def handleGenerationCancel (c : OptimizerState) : OptimizerState :=
  resetState (abortAndClear c)

/-- The white space and line terminator code points removed by `String.prototype.trim`. -/
def jsIsWhiteSpace (ch : Char) : Bool :=
  ch.toNat ∈ [0x09, 0x0A, 0x0B, 0x0C, 0x0D, 0x20, 0xA0, 0x1680, 0x2028, 0x2029, 0x202F,
    0x205F, 0x3000, 0xFEFF] || (0x2000 ≤ ch.toNat && ch.toNat ≤ 0x200A)

/-- The builtin `String.prototype.trim`. -/
def jsTrim (s : String) : String :=
  String.mk ((s.data.dropWhile jsIsWhiteSpace).reverse.dropWhile jsIsWhiteSpace).reverse

/-- Line 138: the guard `!values.prompt?.trim()`. -/
def promptMissing (values : FormValues) : Bool :=
  match values.prompt with
  | none => true
  | some p => jsTrim p == ""

/-- Lines 143-152: the synchronous prologue of `handleSubmit` after validation. -/
def startGeneration (c : OptimizerState) : OptimizerState :=
  { c with step := 1, isGenerating := true, generatedPrompt := "", deepReasoningContent := "",
           evaluationContent := "", isDeepReasoning := false, isEvaluating := false,
           abortController := some { aborted := false } }

/-- Lines 224-229: the completion check `if (data.done || event.event === 'done')` that
closes the `try` block.  The second component is `true` when it ends with `break`. -/
def checkDone (ev : StreamEvent) (f : Frame) (c : OptimizerState) : OptimizerState × Bool :=
  if f.done || ev.event = some "done" then
    ({ c with step := 2, isGenerating := false }, true)
  else
    (c, false)

/-- Lines 196-229: the `try` block once `JSON.parse` has returned a readable value.
The second component is `true` when the iteration ends with `break`. -/
def applyFrame (c : OptimizerState) (ev : StreamEvent) (f : Frame) : OptimizerState × Bool :=
  if f.type = some "deep-reasoning-start" then
    checkDone ev f { c with isDeepReasoning := true }
  else if f.type = some "deep-reasoning-end" then
    checkDone ev f { c with isDeepReasoning := false }
  else if f.type = some "deep-reasoning" then
    match f.message with
    | some t => checkDone ev f { c with deepReasoningContent := c.deepReasoningContent ++ t }
    | none => checkDone ev f c
  else if f.type = some "evaluate-start" then
    checkDone ev f { c with isEvaluating := true }
  else if f.type = some "evaluate-end" then
    checkDone ev f { c with isEvaluating := false }
  else if f.type = some "evaluate" then
    match f.message with
    | some t => checkDone ev f { c with evaluationContent := c.evaluationContent ++ t }
    | none => checkDone ev f c
  else if f.type = some "error" then
    ({ c with notices := c.notices ++
                [Notice.error ((f.message.orElse fun _ => f.error).getD "生成失败")],
              step := 0, isGenerating := false }, true)
  else if f.type = some "message" then
    match f.message with
    | some t => checkDone ev f { c with generatedPrompt := c.generatedPrompt ++ t }
    | none => checkDone ev f c
  else
    checkDone ev f c

/-- Lines 230-243: the `catch (e)` block; `captured` is the closure's `isDeepReasoning`
and `d` is `event.data`. -/
def fallback (captured : Bool) (c : OptimizerState) (d : String) : OptimizerState × Bool :=
  if d ≠ "[DONE]" then
    if captured then
      ({ c with deepReasoningContent := c.deepReasoningContent ++ d }, false)
    else
      ({ c with generatedPrompt := c.generatedPrompt ++ d }, false)
  else
    ({ c with step := 2, isGenerating := false }, true)

/-- Line 187: `abortControllerRef.current?.signal.aborted`. -/
def abortRequested (c : OptimizerState) : Bool :=
  match c.abortController with
  | some a => a.aborted
  | none => false

/-- Lines 185-245: one iteration of the `for await` body.
The second component is `true` when the iteration leaves the loop with `break`. -/
def iteration (parse : String → Decoded) (captured : Bool) (c : OptimizerState)
    (ev : StreamEvent) : OptimizerState × Bool :=
  if abortRequested c then (c, true)
  else
    match ev.data with
    | none => (c, false)
    | some d =>
      if d = "" then (c, false)
      else
        match parse d with
        | Decoded.value f => applyFrame c ev f
        | Decoded.syntaxError => fallback captured c d
        | Decoded.nullValue => fallback captured c d

/-- The `for await` loop over the events the stream yields, in order.
The second component is `true` when the loop was left with `break`. -/
def consume (parse : String → Decoded) (captured : Bool) :
    OptimizerState → List StreamEvent → OptimizerState × Bool
  | c, [] => (c, false)
  | c, ev :: rest =>
    let r := iteration parse captured c ev
    if r.2 then r else consume parse captured r.1 rest

/-- Lines 246-254: the `catch (error)` block of `handleSubmit`. -/
def onStreamError (c : OptimizerState) (name : String) : OptimizerState :=
  if name = "AbortError" then c
  else
    { c with notices := c.notices ++ [Notice.error "生成失败，请稍后重试"],
             step := 0, isGenerating := false }

/-- Lines 255-257: the `finally` block of `handleSubmit`. -/
def releaseController (c : OptimizerState) : OptimizerState :=
  { c with abortController := none }

/-- Lines 154-257: the `try` / `catch` / `finally` statement of `handleSubmit`, run from the
state `c` the prologue produced, against a stream that yields `events` and then ends as
`ending` says. -/
def runStream (parse : String → Decoded) (captured : Bool) (c : OptimizerState)
    (events : List StreamEvent) (ending : StreamEnd) : OptimizerState :=
  let r := consume parse captured c events
  releaseController
    (if r.2 then r.1
     else
       match ending with
       | StreamEnd.returned => r.1
       | StreamEnd.threw name => onStreamError r.1 name)

/-- Lines 137-258: a complete, uninterrupted run of `handleSubmit(values)` from the
component state `c`.  The closure's `isDeepReasoning` is the value in `c`. -/
def handleSubmit (parse : String → Decoded) (values : FormValues) (c : OptimizerState)
    (events : List StreamEvent) (ending : StreamEnd) : OptimizerState :=
  if promptMissing values then
    { c with notices := c.notices ++ [Notice.error "请输入要优化的提示词"] }
  else
    runStream parse c.isDeepReasoning (startGeneration c) events ending

/-! ## The generate call -/

/-- The three stream functions imported from `../services/promptApi`. -/
inductive GenerateFunction where
  | generatePrompt
  | generateFunctionCallingPrompt
  | generateImagePrompt
  deriving DecidableEq, Repr

/-- The object `requestParams` (lines 156-169); an absent property is `none`. -/
structure RequestParams where
  prompt : Option String
  requirements : String
  enableDeepReasoning : Bool
  language : String
  modelId : Option Int
  chatModel : Option String
  deriving DecidableEq, Repr

/-- Truthiness of an optional string: present and not empty. -/
def truthy (v : Option String) : Bool :=
  match v with
  | none => false
  | some t => t != ""

/-- Truthiness of an optional number: present and not zero. -/
def truthyNumber (v : Option Int) : Bool :=
  match v with
  | none => false
  | some n => n != 0

/-- Lines 156-169: the request parameters built from the form values. -/
def requestParams (values : FormValues) : RequestParams :=
  { prompt := values.prompt,
    requirements := values.requirements.getD "",
    enableDeepReasoning := values.enableDeepReasoning.getD false,
    language := "zh-CN",
    modelId := if truthyNumber values.modelId then values.modelId else none,
    chatModel :=
      if truthyNumber values.modelId then none
      else if truthy values.chatModel then values.chatModel else none }

/-- Lines 172-182: the `switch` on `values.optimizationType`. -/
def generateFunction (values : FormValues) : GenerateFunction :=
  if values.optimizationType = some "function-calling" then
    GenerateFunction.generateFunctionCallingPrompt
  else if values.optimizationType = some "image" then
    GenerateFunction.generateImagePrompt
  else
    GenerateFunction.generatePrompt

/-- The call `generateFunction(requestParams)` of line 185 that `handleSubmit(values)`
performs: `none` when the guard of line 138 returns first. -/
def generateCall (values : FormValues) : Option (GenerateFunction × RequestParams) :=
  if promptMissing values then none
  else some (generateFunction values, requestParams values)

/-! ## Saving the result -/

/-- One entry of the `variables` object of a save request. -/
structure VariableSpec where
  type : String
  description : String
  required : Bool
  deriving DecidableEq, Repr

/-- The object `saveData` (lines 693-705); `variableMap` is its property `variables` and
lists the entries of the object literal. -/
structure SaveData where
  name : String
  description : String
  content : String
  variableMap : List (String × VariableSpec)
  deriving DecidableEq, Repr

/-- What the confirm handler reads outside the component state: the values of the two
inputs of the dialog (`none` when `getElementById` finds no element) and the two texts
computed from `new Date()` when the save button was clicked. -/
structure SaveDialog where
  nameInput : Option String
  descriptionInput : Option String
  formattedDate : String
  timestamp : String
  deriving DecidableEq, Repr

/-- Lines 686-705: the record handed to `createPrompt`; `generatedPrompt` is the state
value of the render in which the save button was clicked. -/
def saveData (dialog : SaveDialog) (generatedPrompt : String) : SaveData :=
  { name := dialog.nameInput.getD
      ("优化提示词_" ++ dialog.formattedDate ++ "_" ++ dialog.timestamp),
    description := dialog.descriptionInput.getD "",
    content := generatedPrompt,
    variableMap := [("user_input",
      { type := "string", description := "用户输入", required := true })] }

/-- The effects of confirming the save: the arguments of the `createPrompt` calls made, and
the component state afterwards. -/
structure SaveOutcome where
  submitted : List SaveData
  ui : OptimizerState
  deriving DecidableEq, Repr

/-- Lines 685-724: the `onOk` handler of the save dialog, in the component state `c`.
`createPromptThrows` tells whether `createPrompt` rejects the record.  The refresh of the
saved list and the two window events are not recorded. -/
def confirmSave (dialog : SaveDialog) (createPromptThrows : SaveData → Bool)
    (c : OptimizerState) : SaveOutcome :=
  let record := saveData dialog c.generatedPrompt
  if createPromptThrows record then
    { submitted := [record],
      ui := { c with notices := c.notices ++ [Notice.error "保存提示词失败"] } }
  else
    { submitted := [record],
      ui := handleCancel
        { c with notices := c.notices ++ [Notice.success "提示词保存成功"] } }

/-! ## The component with several `handleSubmit` calls

A call of `handleSubmit` that passed the guard stays suspended at `for await` until its
loop is left; other handlers, and other calls, run in between. -/

/-- A call of `handleSubmit` past its guard: the `isDeepReasoning` binding of its closure
and whether its loop is still awaiting events. -/
structure Call where
  captured : Bool
  awaiting : Bool
  deriving DecidableEq, Repr

/-- The component state and every `handleSubmit` call made so far, oldest first. -/
structure Page where
  ui : OptimizerState
  calls : List Call
  deriving DecidableEq, Repr

/-- What can happen to the mounted component. -/
inductive Action where
  /-- The form, rendered while `step === 0`, is submitted: `handleSubmit(values)`. -/
  | submit (values : FormValues)
  /-- The stream of call `i` yields an event. -/
  | yields (i : Nat) (ev : StreamEvent)
  /-- The stream of call `i` finishes. -/
  | returns (i : Nat)
  /-- The stream of call `i` throws an error with the given `name`. -/
  | throws (i : Nat) (name : String)
  /-- The button "取消生成", rendered while `step === 1`: `handleGenerationCancel`. -/
  | cancelGeneration
  /-- The modal is closed: `handleCancel`. -/
  | close
  /-- The button "重新优化", rendered while `step` is 2: `setStep(0)`. -/
  | reoptimize
  deriving DecidableEq, Repr

/-- The freshly mounted component. -/
def Page.initial : Page := { ui := initialState, calls := [] }

/-- Call `i` resumes with `k`, which gives the new state and whether the call is over;
nothing happens when call `i` does not exist or is over already. -/
def Page.resume (p : Page) (i : Nat) (k : Call → OptimizerState → OptimizerState × Bool) :
    Page :=
  match p.calls.get? i with
  | none => p
  | some call =>
    if call.awaiting then
      let r := k call p.ui
      { ui := r.1, calls := p.calls.set i { call with awaiting := !r.2 } }
    else p

/-- One action on the component. -/
def Page.advance (parse : String → Decoded) (p : Page) : Action → Page
  | Action.submit values =>
    if p.ui.step = 0 then
      if promptMissing values then
        { p with ui := { p.ui with notices :=
            p.ui.notices ++ [Notice.error "请输入要优化的提示词"] } }
      else
        { ui := startGeneration p.ui,
          calls := p.calls ++ [{ captured := p.ui.isDeepReasoning, awaiting := true }] }
    else p
  | Action.yields i ev =>
    p.resume i fun call ui =>
      let r := iteration parse call.captured ui ev
      if r.2 then (releaseController r.1, true) else (r.1, false)
  | Action.returns i =>
    p.resume i fun _ ui => (releaseController ui, true)
  | Action.throws i name =>
    p.resume i fun _ ui => (releaseController (onStreamError ui name), true)
  | Action.cancelGeneration =>
    if p.ui.step = 1 then { p with ui := handleGenerationCancel p.ui } else p
  | Action.close => { p with ui := handleCancel p.ui }
  | Action.reoptimize =>
    if p.ui.step = 2 then { p with ui := { p.ui with step := 0 } } else p

/-- A sequence of actions, in order. -/
def Page.run (parse : String → Decoded) (p : Page) (actions : List Action) : Page :=
  actions.foldl (Page.advance parse) p

/-! ## A session interleaved with the user

`handleSubmit` is suspended at `for await` between two events; a click on
"取消生成" (shown while `step === 1`) runs `handleGenerationCancel` in between. -/

/-- A call of `handleSubmit` in progress: the component state it writes to, the
`isDeepReasoning` binding of its closure, and whether its loop is still awaiting events. -/
structure Session where
  ui : OptimizerState
  captured : Bool
  awaiting : Bool
  deriving DecidableEq, Repr

/-- What happens next while the call is suspended. -/
inductive Occurrence where
  /-- The stream yields its next event. -/
  | yields (ev : StreamEvent)
  /-- The user clicks "取消生成": `handleGenerationCancel` runs. -/
  | cancelClicked
  deriving DecidableEq, Repr

/-- Lines 137-185: `handleSubmit(values)` up to its first `await`. -/
def Session.start (values : FormValues) (c : OptimizerState) : Session :=
  if promptMissing values then
    { ui := { c with notices := c.notices ++ [Notice.error "请输入要优化的提示词"] },
      captured := c.isDeepReasoning, awaiting := false }
  else
    { ui := startGeneration c, captured := c.isDeepReasoning, awaiting := true }

/-- One occurrence.  A yielded event runs one loop iteration when the loop is still
awaiting (on `break` the `finally` block runs and the call is over); a click runs
`handleGenerationCancel`, which does not touch the suspended call. -/
def Session.advance (parse : String → Decoded) (s : Session) : Occurrence → Session
  | Occurrence.yields ev =>
    if s.awaiting then
      let r := iteration parse s.captured s.ui ev
      if r.2 then { s with ui := releaseController r.1, awaiting := false }
      else { s with ui := r.1 }
    else s
  | Occurrence.cancelClicked => { s with ui := handleGenerationCancel s.ui }

/-- A sequence of occurrences, in order. -/
def Session.run (parse : String → Decoded) (s : Session) (occs : List Occurrence) : Session :=
  occs.foldl (Session.advance parse) s

/-- The seven state cells a session displays. -/
def visible (c : OptimizerState) : Nat × Bool × String × String × String × Bool × Bool :=
  (c.step, c.isGenerating, c.generatedPrompt, c.deepReasoningContent, c.evaluationContent,
    c.isDeepReasoning, c.isEvaluating)

/-- The cells that only a terminal outcome of the loop writes: `step`, `isGenerating` and
the reported messages. -/
def phaseCells (c : OptimizerState) : Nat × Bool × List Notice :=
  (c.step, c.isGenerating, c.notices)

/-- The state is the one of a running generation: `step` 1, `isGenerating`, and the
reference holds no aborted controller. -/
def Generating (c : OptimizerState) : Prop :=
  c.step = 1 ∧ c.isGenerating = true ∧ abortRequested c = false

instance (c : OptimizerState) : Decidable (Generating c) := by
  unfold Generating; infer_instance

/-! ## Sample chunks -/

/-- A frame with a `type` and a `message`, as `JSON.parse` reads
`\x7b"type":ty,"message":msg\x7d`. -/
def textFrame (ty msg : String) : Frame :=
  { type := some ty, message := some msg, error := none, done := false }

/-- What `JSON.parse` and the property reads give on the chunks of the worked examples;
any other text of the examples is not JSON. -/
def sampleParse (d : String) : Decoded :=
  if d = "\x7b\"type\":\"message\",\"message\":\"Roses\"\x7d" then
    Decoded.value (textFrame "message" "Roses")
  else if d = "\x7b\"type\":\"message\",\"message\":\" are red\"\x7d" then
    Decoded.value (textFrame "message" " are red")
  else if d = "\x7b\"type\":\"message\",\"message\":\"partial\"\x7d" then
    Decoded.value (textFrame "message" "partial")
  else if d = "\x7b\"type\":\"message\",\"message\":\"late\"\x7d" then
    Decoded.value (textFrame "message" "late")
  else if d = "\x7b\"type\":\"error\",\"message\":\"rate limited\"\x7d" then
    Decoded.value (textFrame "error" "rate limited")
  else if d = "\x7b\"type\":\"error\",\"message\":\"boom\",\"done\":true\x7d" then
    Decoded.value { type := some "error", message := some "boom", error := none, done := true }
  else if d = "\x7b\"type\":\"deep-reasoning-start\"\x7d" then
    Decoded.value { type := some "deep-reasoning-start", message := none, error := none,
                    done := false }
  else if d = "\x7b\"done\":true\x7d" then
    Decoded.value { type := none, message := none, error := none, done := true }
  else if d = "\x7b\"type\":\"deep-reasoning\",\"message\":\"thinking...\"\x7d" then
    Decoded.value (textFrame "deep-reasoning" "thinking...")
  else if d = "\x7b\"type\":\"deep-reasoning-end\"\x7d" then
    Decoded.value { type := some "deep-reasoning-end", message := none, error := none,
                    done := false }
  else if d = "\x7b\"type\":\"message\",\"message\":\"Result\"\x7d" then
    Decoded.value (textFrame "message" "Result")
  else if d = "\x7b\"type\":\"ping\",\"message\":\"hello\"\x7d" then
    Decoded.value (textFrame "ping" "hello")
  else if d = "\x7b\"type\":\"message\",\"message\":\"\"\x7d" then
    Decoded.value { type := some "message", message := none, error := none, done := false }
  else if d = "null" then Decoded.nullValue
  else Decoded.syntaxError

/-- An unnamed event carrying the text `d`. -/
def chunk (d : String) : StreamEvent := { event := none, data := some d }

/-- A valid form input: the prompt of Scenario A, every other field left out. -/
def poemRequest : FormValues :=
  { prompt := some "write a poem", requirements := none, enableDeepReasoning := none,
    modelId := none, chatModel := none, optimizationType := none }

/-! ## Frames, as the specification speaks of them -/

/-- The frame an event decodes to: its data is non-empty, `JSON.parse` accepts it and the
result has readable properties. -/
def frameOf (parse : String → Decoded) (ev : StreamEvent) : Option Frame :=
  match ev.data with
  | none => none
  | some d =>
    if d = "" then none
    else
      match parse d with
      | Decoded.value f => some f
      | Decoded.syntaxError => none
      | Decoded.nullValue => none

/-- An `error` frame. -/
def IsErrorFrame (parse : String → Decoded) (ev : StreamEvent) : Prop :=
  ∃ f, frameOf parse ev = some f ∧ f.type = some "error"

/-- A done frame: a decoded frame other than an `error` frame that carries a truthy `done`
marker or arrives in an event named `done`, or the end-of-stream sentinel `[DONE]`. -/
def IsDoneFrame (parse : String → Decoded) (ev : StreamEvent) : Prop :=
  (∃ f, frameOf parse ev = some f ∧ f.type ≠ some "error" ∧
      (f.done = true ∨ ev.event = some "done")) ∨
    (ev.data = some "[DONE]" ∧ parse "[DONE]" = Decoded.syntaxError)

/-- A terminal frame: an `error` frame, a frame with a `done` marker, or a frame of an
event named `done`. -/
def isTerminalFrame (parse : String → Decoded) (ev : StreamEvent) : Bool :=
  match frameOf parse ev with
  | some f => decide (f.type = some "error") || f.done || decide (ev.event = some "done")
  | none => false

/-- The events up to and including the first terminal frame. -/
def throughFirstTerminal (parse : String → Decoded) : List StreamEvent → List StreamEvent
  | [] => []
  | ev :: rest =>
    if isTerminalFrame parse ev then [ev] else ev :: throughFirstTerminal parse rest

/-- The message text of an event when it is a frame of type `ty` with a truthy message. -/
def deltaOf (parse : String → Decoded) (ty : String) (ev : StreamEvent) : Option String :=
  match frameOf parse ev with
  | some f => if f.type = some ty then f.message else none
  | none => none

/-- Concatenation of texts, in list order. -/
def concatTexts : List String → String
  | [] => ""
  | t :: rest => t ++ concatTexts rest

/-- The concatenation, in arrival order, of the messages of all frames of type `ty`. -/
def deltas (parse : String → Decoded) (ty : String) (events : List StreamEvent) : String :=
  concatTexts (events.filterMap (deltaOf parse ty))

/-- The prompt of the form input is missing, empty, or consists only of white space. -/
def BlankPrompt (values : FormValues) : Prop :=
  values.prompt = none ∨
    ∃ p, values.prompt = some p ∧ ∀ ch ∈ p.data, jsIsWhiteSpace ch = true

/-- The state is the one of a completed session: `step` 2 and not generating. -/
def Completed (c : OptimizerState) : Prop :=
  c.step = 2 ∧ c.isGenerating = false

/-- The `type` of the frame an event decodes to. -/
def frameType (parse : String → Decoded) (ev : StreamEvent) : Option String :=
  match frameOf parse ev with
  | some f => f.type
  | none => none

/-- In a sequence of frame types, each `deep-reasoning-start` is followed, later in the
sequence, by a `deep-reasoning-end`. -/
def EachStartClosed : List (Option String) → Prop
  | [] => True
  | t :: rest =>
    (t = some "deep-reasoning-start" → some "deep-reasoning-end" ∈ rest) ∧ EachStartClosed rest

instance eachStartClosedDecidable : ∀ ts : List (Option String), Decidable (EachStartClosed ts)
  | [] => isTrue trivial
  | t :: rest =>
    have := eachStartClosedDecidable rest
    inferInstanceAs (Decidable
      ((t = some "deep-reasoning-start" → some "deep-reasoning-end" ∈ rest) ∧
        EachStartClosed rest))

/-- The reasoning flag of the transition table after a frame of type `t`. -/
def reasoningAfter (b : Bool) (t : Option String) : Bool :=
  if t = some "deep-reasoning-start" then true
  else if t = some "deep-reasoning-end" then false
  else b

/-- A dialog whose two inputs were left as rendered for a save at 3/7 10:05:09. -/
def sampleDialog : SaveDialog :=
  { nameInput := some "优化提示词_3/7 10:05:09_1700000000000",
    descriptionInput := some "基于原始提示词优化生成",
    formattedDate := "3/7 10:05:09", timestamp := "1700000000000" }

/-- How one step of a `handleSubmit` call may move `step` and `isGenerating` from `c` to
`r`: not at all, to the failed outcome, or to the completed outcome. -/
def PhaseStep (c r : OptimizerState) : Prop :=
  (r.step = c.step ∧ r.isGenerating = c.isGenerating) ∨
    (r.step = 0 ∧ r.isGenerating = false) ∨ (r.step = 2 ∧ r.isGenerating = false)

/-- The phase cells agree: `isGenerating` holds exactly at `step` 1, and `step` is 0, 1
or 2. -/
def PhaseConsistent (c : OptimizerState) : Prop :=
  (c.isGenerating = true ↔ c.step = 1) ∧ (c.step = 0 ∨ c.step = 1 ∨ c.step = 2)

/-- The eight values of `data.type` the loop tests for. -/
def recognisedTypes : List String :=
  ["deep-reasoning-start", "deep-reasoning-end", "deep-reasoning", "evaluate-start",
    "evaluate-end", "evaluate", "error", "message"]

end PromptOptimizer

/-!
# The variable list of `PromptEditor.js`

The hooks `variables`, `variableNames`, `newVariableName` of
`src/src/components/PromptEditor.js` and the handlers that write them.  The object
`variables` is a finite map from keys to values: a function that gives the value of each
own key.
-/

namespace PromptEditor

/-- The hooks of lines 12-14, with the `message` calls made so far; `variableMap` is the
hook `variables`. -/
structure EditorState where
  variableMap : String → Option String
  variableNames : List String
  newVariableName : String
  notices : List PromptOptimizer.Notice

/-- The `useState` initial values: `\x7buser_input: ''\x7d`, `['user_input']`, `''`. -/
def initialState : EditorState :=
  { variableMap := fun k => if k = "user_input" then some "" else none,
    variableNames := ["user_input"],
    newVariableName := "",
    notices := [] }

/-- The object `\x7b...obj, [key]: value\x7d`. -/
def withKey (obj : String → Option String) (key value : String) : String → Option String :=
  fun k => if k = key then some value else obj k

/-- The object `obj` after `delete obj[key]`. -/
def withoutKey (obj : String → Option String) (key : String) : String → Option String :=
  fun k => if k = key then none else obj k

/-- Lines 90-104: `addVariable`. -/
def addVariable (s : EditorState) : EditorState :=
  if PromptOptimizer.jsTrim s.newVariableName = "" then
    { s with notices := s.notices ++ [PromptOptimizer.Notice.warning "变量名不能为空"] }
  else if s.newVariableName ∈ s.variableNames then
    { s with notices := s.notices ++ [PromptOptimizer.Notice.warning "变量名已存在"] }
  else
    { s with variableNames := s.variableNames ++ [s.newVariableName],
             variableMap := withKey s.variableMap s.newVariableName "",
             newVariableName := "" }

/-- Lines 106-118: `removeVariable`. -/
def removeVariable (name : String) (s : EditorState) : EditorState :=
  if name = "user_input" then
    { s with notices :=
        s.notices ++ [PromptOptimizer.Notice.warning "不能删除默认变量 user_input"] }
  else
    { s with variableNames := s.variableNames.filter (fun v => decide (v ≠ name)),
             variableMap := withoutKey s.variableMap name }

/-- What the user can do to the variable list. -/
inductive EditorAction where
  /-- Line 333: typing in the name input, `setNewVariableName(e.target.value)`. -/
  | typeName (text : String)
  /-- The button "添加变量": `addVariable()`. -/
  | add
  /-- `removeVariable(name)`. -/
  | remove (name : String)
  /-- Lines 364-368: typing in the value input rendered for `name`, one of
  `variableNames`: `setVariables(\x7b...variables, [name]: e.target.value\x7d)`. -/
  | edit (name value : String)

/-- One action on the editor. -/
def advance (s : EditorState) : EditorAction → EditorState
  | EditorAction.typeName text => { s with newVariableName := text }
  | EditorAction.add => addVariable s
  | EditorAction.remove name => removeVariable name s
  | EditorAction.edit name value =>
    if name ∈ s.variableNames then { s with variableMap := withKey s.variableMap name value }
    else s

/-- A sequence of actions, in order. -/
def run (s : EditorState) (actions : List EditorAction) : EditorState :=
  actions.foldl advance s

/-- The invariant of the variable list: `user_input` is a name, no name occurs twice, no
name is empty after trimming, and the keys of `variables` are exactly the names. -/
def WellFormed (s : EditorState) : Prop :=
  "user_input" ∈ s.variableNames ∧ s.variableNames.Nodup ∧
    (∀ n ∈ s.variableNames, PromptOptimizer.jsTrim n ≠ "") ∧
    (∀ k, (s.variableMap k).isSome = true ↔ k ∈ s.variableNames)

end PromptEditor

/-!
# The store of `authStore.js`

The zustand store of `src/src/stores/authStore.js`: its four state cells and its
actions.  The user record is kept as an opaque text.
-/

namespace AuthStore

/-- The state cells of lines 8-11; `none` is `null`. -/
structure AuthState where
  token : Option String
  isAuthenticated : Bool
  user : Option String
  loginType : Option String
  deriving DecidableEq, Repr

/-- The initial state of the store. -/
def initialState : AuthState :=
  { token := none, isAuthenticated := false, user := none, loginType := none }

/-- Lines 14-21: `login(token, user, loginType = 'password')`; a `loginType` of `none` is
an omitted argument. -/
def login (token user loginType : Option String) (_s : AuthState) : AuthState :=
  { token := token, user := user, isAuthenticated := true,
    loginType := some (loginType.getD "password") }

/-- Lines 24-31: `logout()`. -/
def logout (_s : AuthState) : AuthState :=
  { token := none, user := none, isAuthenticated := false, loginType := none }

/-- Lines 34-36: `updateUser(user)`. -/
def updateUser (user : Option String) (s : AuthState) : AuthState :=
  { s with user := user }

/-- The value of `state.isAuthenticated && state.token`. -/
inductive CheckValue where
  /-- The boolean `false` of `isAuthenticated`. -/
  | notAuthenticated
  /-- The token, when `isAuthenticated` is true. -/
  | token (t : Option String)
  deriving DecidableEq, Repr

/-- Truthiness of the value `checkAuth` returns. -/
def CheckValue.truthy : CheckValue → Bool
  | CheckValue.notAuthenticated => false
  | CheckValue.token t => PromptOptimizer.truthy t

/-- Lines 39-42: `checkAuth()`. -/
def checkAuth (s : AuthState) : CheckValue :=
  if s.isAuthenticated then CheckValue.token s.token else CheckValue.notAuthenticated

/-- Lines 45-51: `getAuthHeader()`, as the list of the entries of the object returned. -/
def getAuthHeader (s : AuthState) : List (String × String) :=
  match s.token with
  | some t => if t ≠ "" then [("Authorization", "Bearer " ++ t)] else []
  | none => []

/-- A call of one of the three actions that write the store. -/
inductive StoreAction where
  | login (token user loginType : Option String)
  | logout
  | updateUser (user : Option String)
  deriving DecidableEq, Repr

/-- One action on the store. -/
def advance (s : AuthState) : StoreAction → AuthState
  | StoreAction.login token user loginType => login token user loginType s
  | StoreAction.logout => logout s
  | StoreAction.updateUser user => updateUser user s

/-- A sequence of actions, in order. -/
def run (s : AuthState) (actions : List StoreAction) : AuthState :=
  actions.foldl advance s

end AuthStore

/-! ## Theorems -/

namespace PromptOptimizer

/-! ### Cancellation -/

theorem abortRequested_handleGenerationCancel (c : OptimizerState) :
    abortRequested (handleGenerationCancel c) = false := by
  obtain ⟨_, _, _, _, _, _, _, ctl, _⟩ := c
  cases ctl <;> rfl

theorem visible_handleGenerationCancel (c : OptimizerState) :
    visible (handleGenerationCancel c) = (0, false, "", "", "", false, false) := by
  obtain ⟨_, _, _, _, _, _, _, ctl, _⟩ := c
  cases ctl <;> rfl

theorem run_append (parse : String → Decoded) (s : Session) (xs ys : List Occurrence) :
    Session.run parse s (xs ++ ys) = Session.run parse (Session.run parse s xs) ys := by
  simp [Session.run, List.foldl_append]

/-- C1, evaluated on the code: the loop keeps consuming after `handleGenerationCancel`.
From a fresh component, submit, let the stream yield `message "partial"`, click cancel:
the state is reset, the call is still awaiting and its cancellation check reads a null
reference.  The two events the stream yields afterwards, `message "late"` and a done
frame, are applied: `generatedPrompt` becomes `"late"` and `step` becomes 2. -/
theorem events_after_cancel_are_applied :
    visible (Session.run sampleParse (Session.start poemRequest initialState)
        [Occurrence.yields (chunk "\x7b\"type\":\"message\",\"message\":\"partial\"\x7d"),
         Occurrence.cancelClicked]).ui = (0, false, "", "", "", false, false) ∧
    (Session.run sampleParse (Session.start poemRequest initialState)
        [Occurrence.yields (chunk "\x7b\"type\":\"message\",\"message\":\"partial\"\x7d"),
         Occurrence.cancelClicked]).awaiting = true ∧
    abortRequested (Session.run sampleParse (Session.start poemRequest initialState)
        [Occurrence.yields (chunk "\x7b\"type\":\"message\",\"message\":\"partial\"\x7d"),
         Occurrence.cancelClicked]).ui = false ∧
    visible (Session.run sampleParse (Session.start poemRequest initialState)
        [Occurrence.yields (chunk "\x7b\"type\":\"message\",\"message\":\"partial\"\x7d"),
         Occurrence.cancelClicked,
         Occurrence.yields (chunk "\x7b\"type\":\"message\",\"message\":\"late\"\x7d"),
         Occurrence.yields (chunk "\x7b\"done\":true\x7d")]).ui
      = (2, false, "late", "", "", false, false) :=
  ⟨rfl, rfl, rfl, rfl⟩

/-- C2 as stated fails: with the frame `message "partial"` applied and then
`handleGenerationCancel` invoked, `generatedPrompt` held `"partial"` before the cancel and
is not `"partial"` after it. -/
theorem cancel_drops_partial_text :
    (Session.run sampleParse (Session.start poemRequest initialState)
        [Occurrence.yields (chunk "\x7b\"type\":\"message\",\"message\":\"partial\"\x7d")]
      ).ui.generatedPrompt = "partial" ∧
    (Session.run sampleParse (Session.start poemRequest initialState)
        [Occurrence.yields (chunk "\x7b\"type\":\"message\",\"message\":\"partial\"\x7d"),
         Occurrence.cancelClicked]).ui.generatedPrompt ≠ "partial" := by
  decide

/-- C2, amended: for every sequence of events applied before `handleGenerationCancel` is
invoked, the session afterwards is no longer generating (`step` 0, `isGenerating` false),
the three buffers are empty and both activity flags are false. -/
theorem cancel_resets_session (parse : String → Decoded) (values : FormValues)
    (c : OptimizerState) (events : List StreamEvent) :
    visible (Session.run parse (Session.start values c)
        (events.map Occurrence.yields ++ [Occurrence.cancelClicked])).ui
      = (0, false, "", "", "", false, false) := by
  rw [run_append]
  simp only [Session.run, List.foldl_cons, List.foldl_nil, Session.advance]
  exact visible_handleGenerationCancel _

end PromptOptimizer

namespace PromptOptimizer

/-! ### The loop on decoded frames -/

theorem iteration_of_frame (parse : String → Decoded) (captured : Bool) (c : OptimizerState)
    (ev : StreamEvent) (f : Frame) (hc : abortRequested c = false)
    (hf : frameOf parse ev = some f) : iteration parse captured c ev = applyFrame c ev f := by
  unfold frameOf at hf
  unfold iteration
  simp only [hc, Bool.false_eq_true, if_false]
  cases hd : ev.data with
  | none => simp [hd] at hf
  | some d =>
    simp only [hd] at hf ⊢
    by_cases hd0 : d = ""
    · simp [hd0] at hf
    · simp only [hd0, if_false] at hf ⊢
      cases hp : parse d with
      | value g => simp only [hp, Option.some.injEq] at hf ⊢; rw [hf]
      | syntaxError => simp [hp] at hf
      | nullValue => simp [hp] at hf

theorem checkDone_break (ev : StreamEvent) (f : Frame) (c : OptimizerState) :
    (checkDone ev f c).2 = (f.done || decide (ev.event = some "done")) := by
  unfold checkDone
  split_ifs with h
  · simpa using h
  · simpa using h

theorem checkDone_buffers (ev : StreamEvent) (f : Frame) (c : OptimizerState) :
    (checkDone ev f c).1.generatedPrompt = c.generatedPrompt ∧
    (checkDone ev f c).1.deepReasoningContent = c.deepReasoningContent ∧
    (checkDone ev f c).1.evaluationContent = c.evaluationContent ∧
    (checkDone ev f c).1.abortController = c.abortController := by
  unfold checkDone
  split_ifs <;> simp

theorem applyFrame_break (c : OptimizerState) (ev : StreamEvent) (f : Frame) :
    (applyFrame c ev f).2
      = (decide (f.type = some "error") || f.done || decide (ev.event = some "done")) := by
  unfold applyFrame
  split_ifs <;> (try split) <;> simp_all [checkDone_break]

theorem applyFrame_abortController (c : OptimizerState) (ev : StreamEvent) (f : Frame) :
    (applyFrame c ev f).1.abortController = c.abortController := by
  unfold applyFrame
  split_ifs <;> (try split) <;> simp_all [checkDone_buffers]

theorem applyFrame_generatedPrompt (c : OptimizerState) (ev : StreamEvent) (f : Frame) :
    (applyFrame c ev f).1.generatedPrompt
      = c.generatedPrompt ++ (if f.type = some "message" then f.message.getD "" else "") := by
  unfold applyFrame
  split_ifs <;> (try split) <;> simp_all [checkDone_buffers]

theorem applyFrame_deepReasoningContent (c : OptimizerState) (ev : StreamEvent) (f : Frame) :
    (applyFrame c ev f).1.deepReasoningContent
      = c.deepReasoningContent
          ++ (if f.type = some "deep-reasoning" then f.message.getD "" else "") := by
  unfold applyFrame
  split_ifs <;> (try split) <;> simp_all [checkDone_buffers]

theorem applyFrame_evaluationContent (c : OptimizerState) (ev : StreamEvent) (f : Frame) :
    (applyFrame c ev f).1.evaluationContent
      = c.evaluationContent ++ (if f.type = some "evaluate" then f.message.getD "" else "") := by
  unfold applyFrame
  split_ifs <;> (try split) <;> simp_all [checkDone_buffers]

/-! ### The append-only law -/

theorem deltas_cons (parse : String → Decoded) (ty : String) (ev : StreamEvent)
    (rest : List StreamEvent) :
    deltas parse ty (ev :: rest) = (deltaOf parse ty ev).getD "" ++ deltas parse ty rest := by
  unfold deltas
  cases h : deltaOf parse ty ev <;> simp [List.filterMap_cons, h, concatTexts]

theorem deltas_nil (parse : String → Decoded) (ty : String) : deltas parse ty [] = "" := rfl

theorem deltaOf_of_frame (parse : String → Decoded) (ty : String) (ev : StreamEvent)
    (f : Frame) (hf : frameOf parse ev = some f) :
    (deltaOf parse ty ev).getD "" = if f.type = some ty then f.message.getD "" else "" := by
  unfold deltaOf
  rw [hf]
  split_ifs <;> simp [*]

theorem consume_cons (parse : String → Decoded) (captured : Bool) (c : OptimizerState)
    (ev : StreamEvent) (rest : List StreamEvent) :
    consume parse captured c (ev :: rest)
      = if (iteration parse captured c ev).2 then iteration parse captured c ev
        else consume parse captured (iteration parse captured c ev).1 rest := rfl

theorem consume_frames (parse : String → Decoded) (captured : Bool) :
    ∀ (events : List StreamEvent) (c : OptimizerState),
      (∀ ev ∈ events, (frameOf parse ev).isSome = true) → abortRequested c = false →
      (consume parse captured c events).1.generatedPrompt
          = c.generatedPrompt ++ deltas parse "message" (throughFirstTerminal parse events) ∧
      (consume parse captured c events).1.deepReasoningContent
          = c.deepReasoningContent
              ++ deltas parse "deep-reasoning" (throughFirstTerminal parse events) ∧
      (consume parse captured c events).1.evaluationContent
          = c.evaluationContent ++ deltas parse "evaluate" (throughFirstTerminal parse events)
  | [], c, _, _ => by simp [consume, throughFirstTerminal, deltas_nil]
  | ev :: rest, c, hall, hc => by
    obtain ⟨f, hf⟩ := Option.isSome_iff_exists.mp (hall ev (List.mem_cons_self _ _))
    have hit := iteration_of_frame parse captured c ev f hc hf
    have hterm : isTerminalFrame parse ev = (applyFrame c ev f).2 := by
      rw [applyFrame_break]; unfold isTerminalFrame; rw [hf]
    rw [consume_cons, hit]
    unfold throughFirstTerminal
    rw [hterm]
    by_cases hb : (applyFrame c ev f).2 = true
    · simp only [hb, if_true, deltas_cons, deltas_nil, String.append_empty,
        deltaOf_of_frame parse _ ev f hf]
      exact ⟨applyFrame_generatedPrompt c ev f, applyFrame_deepReasoningContent c ev f,
        applyFrame_evaluationContent c ev f⟩
    · have hc1 : abortRequested (applyFrame c ev f).1 = false := by
        unfold abortRequested at hc ⊢
        rw [applyFrame_abortController]; exact hc
      have ih := consume_frames parse captured rest (applyFrame c ev f).1
        (fun e he => hall e (List.mem_cons_of_mem _ he)) hc1
      simp only [hb, Bool.false_eq_true, if_false, deltas_cons,
        deltaOf_of_frame parse _ ev f hf]
      rw [ih.1, ih.2.1, ih.2.2, applyFrame_generatedPrompt, applyFrame_deepReasoningContent,
        applyFrame_evaluationContent]
      simp only [String.append_assoc]
      exact ⟨trivial, trivial, trivial⟩

theorem onStreamError_buffers (c : OptimizerState) (name : String) :
    (onStreamError c name).generatedPrompt = c.generatedPrompt ∧
    (onStreamError c name).deepReasoningContent = c.deepReasoningContent ∧
    (onStreamError c name).evaluationContent = c.evaluationContent ∧
    (onStreamError c name).isDeepReasoning = c.isDeepReasoning ∧
    (onStreamError c name).isEvaluating = c.isEvaluating := by
  unfold onStreamError
  split_ifs <;> simp

theorem runStream_buffers (parse : String → Decoded) (captured : Bool) (c : OptimizerState)
    (events : List StreamEvent) (ending : StreamEnd) :
    (runStream parse captured c events ending).generatedPrompt
        = (consume parse captured c events).1.generatedPrompt ∧
    (runStream parse captured c events ending).deepReasoningContent
        = (consume parse captured c events).1.deepReasoningContent ∧
    (runStream parse captured c events ending).evaluationContent
        = (consume parse captured c events).1.evaluationContent := by
  simp only [runStream, releaseController]
  by_cases hb : (consume parse captured c events).2 = true
  · simp [hb]
  · cases ending with
    | returned => simp [hb]
    | threw name => simp [hb, onStreamError_buffers]

/-- C3: the append-only law.  For every valid form input and every sequence of decoded
frames yielded by the stream, when `handleSubmit` is over `generatedPrompt` is the
concatenation, in arrival order, of the messages of the `message` frames up to and
including the first terminal frame, `deepReasoningContent` that of the `deep-reasoning`
frames and `evaluationContent` that of the `evaluate` frames. -/
theorem append_only_law (parse : String → Decoded) (values : FormValues) (c : OptimizerState)
    (events : List StreamEvent) (ending : StreamEnd)
    (hvalid : promptMissing values = false)
    (hframes : ∀ ev ∈ events, (frameOf parse ev).isSome = true) :
    (handleSubmit parse values c events ending).generatedPrompt
        = deltas parse "message" (throughFirstTerminal parse events) ∧
    (handleSubmit parse values c events ending).deepReasoningContent
        = deltas parse "deep-reasoning" (throughFirstTerminal parse events) ∧
    (handleSubmit parse values c events ending).evaluationContent
        = deltas parse "evaluate" (throughFirstTerminal parse events) := by
  unfold handleSubmit
  simp only [hvalid, Bool.false_eq_true, if_false]
  have hb := runStream_buffers parse c.isDeepReasoning (startGeneration c) events ending
  have hl := consume_frames parse c.isDeepReasoning events (startGeneration c) hframes rfl
  rw [hb.1, hb.2.1, hb.2.2, hl.1, hl.2.1, hl.2.2]
  simp [startGeneration]

/-- Scenario A: the frames `message "Roses"`, `message " are red"`, done give
`generatedPrompt = "Roses are red"`, `step` 2 and `isGenerating` false. -/
theorem append_only_law_witness :
    promptMissing poemRequest = false ∧
    (∀ ev ∈ [chunk "\x7b\"type\":\"message\",\"message\":\"Roses\"\x7d",
              chunk "\x7b\"type\":\"message\",\"message\":\" are red\"\x7d",
              chunk "\x7b\"done\":true\x7d"], (frameOf sampleParse ev).isSome = true) ∧
    ((handleSubmit sampleParse poemRequest initialState
          [chunk "\x7b\"type\":\"message\",\"message\":\"Roses\"\x7d",
           chunk "\x7b\"type\":\"message\",\"message\":\" are red\"\x7d",
           chunk "\x7b\"done\":true\x7d"] StreamEnd.returned).generatedPrompt
        = deltas sampleParse "message" (throughFirstTerminal sampleParse
          [chunk "\x7b\"type\":\"message\",\"message\":\"Roses\"\x7d",
           chunk "\x7b\"type\":\"message\",\"message\":\" are red\"\x7d",
           chunk "\x7b\"done\":true\x7d"]) ∧
      (handleSubmit sampleParse poemRequest initialState
          [chunk "\x7b\"type\":\"message\",\"message\":\"Roses\"\x7d",
           chunk "\x7b\"type\":\"message\",\"message\":\" are red\"\x7d",
           chunk "\x7b\"done\":true\x7d"] StreamEnd.returned).deepReasoningContent
        = deltas sampleParse "deep-reasoning" (throughFirstTerminal sampleParse
          [chunk "\x7b\"type\":\"message\",\"message\":\"Roses\"\x7d",
           chunk "\x7b\"type\":\"message\",\"message\":\" are red\"\x7d",
           chunk "\x7b\"done\":true\x7d"]) ∧
      (handleSubmit sampleParse poemRequest initialState
          [chunk "\x7b\"type\":\"message\",\"message\":\"Roses\"\x7d",
           chunk "\x7b\"type\":\"message\",\"message\":\" are red\"\x7d",
           chunk "\x7b\"done\":true\x7d"] StreamEnd.returned).evaluationContent
        = deltas sampleParse "evaluate" (throughFirstTerminal sampleParse
          [chunk "\x7b\"type\":\"message\",\"message\":\"Roses\"\x7d",
           chunk "\x7b\"type\":\"message\",\"message\":\" are red\"\x7d",
           chunk "\x7b\"done\":true\x7d"])) ∧
    visible (handleSubmit sampleParse poemRequest initialState
          [chunk "\x7b\"type\":\"message\",\"message\":\"Roses\"\x7d",
           chunk "\x7b\"type\":\"message\",\"message\":\" are red\"\x7d",
           chunk "\x7b\"done\":true\x7d"] StreamEnd.returned)
      = (2, false, "Roses are red", "", "", false, false) :=
  ⟨by decide, by decide,
    append_only_law sampleParse poemRequest initialState _ StreamEnd.returned
      (by decide) (by decide),
    rfl⟩

/-! ### Terminal outcomes -/

theorem consume_append_of_break (parse : String → Decoded) (captured : Bool) :
    ∀ (pre post : List StreamEvent) (c : OptimizerState),
      (consume parse captured c pre).2 = true →
      consume parse captured c (pre ++ post) = consume parse captured c pre
  | [], _, c, h => by simp [consume] at h
  | ev :: rest, post, c, h => by
    rw [List.cons_append, consume_cons, consume_cons]
    rw [consume_cons] at h
    by_cases hb : (iteration parse captured c ev).2 = true
    · simp [hb]
    · simp only [hb, if_false] at h ⊢
      exact consume_append_of_break parse captured rest post _ h

/-- C4: terminal outcomes are sticky.  When the loop of `handleSubmit` has left through a
`break` while processing `pre` (a done marker, an event named `done`, an `error` frame or
the `[DONE]` sentinel), the events `post` the stream would deliver afterwards alter
nothing: processing `pre ++ post` gives the state of processing `pre` alone, for the loop
and for the whole `try` / `catch` / `finally` statement, however the stream ends. -/
theorem terminal_is_sticky (parse : String → Decoded) (captured : Bool) (c : OptimizerState)
    (pre post : List StreamEvent) (ending ending' : StreamEnd)
    (hterminal : (consume parse captured c pre).2 = true) :
    consume parse captured c (pre ++ post) = consume parse captured c pre ∧
    runStream parse captured c (pre ++ post) ending'
      = runStream parse captured c pre ending := by
  have h := consume_append_of_break parse captured pre post c hterminal
  refine ⟨h, ?_⟩
  unfold runStream
  simp only [h, hterminal, if_true]

/-- After the done frame, a later `message "late"` and a thrown error change nothing. -/
theorem terminal_is_sticky_witness :
    (consume sampleParse false (startGeneration initialState)
        [chunk "\x7b\"type\":\"message\",\"message\":\"Roses\"\x7d",
         chunk "\x7b\"done\":true\x7d"]).2 = true ∧
    (consume sampleParse false (startGeneration initialState)
        ([chunk "\x7b\"type\":\"message\",\"message\":\"Roses\"\x7d",
          chunk "\x7b\"done\":true\x7d"]
          ++ [chunk "\x7b\"type\":\"message\",\"message\":\"late\"\x7d"])
      = consume sampleParse false (startGeneration initialState)
        [chunk "\x7b\"type\":\"message\",\"message\":\"Roses\"\x7d",
         chunk "\x7b\"done\":true\x7d"] ∧
     runStream sampleParse false (startGeneration initialState)
        ([chunk "\x7b\"type\":\"message\",\"message\":\"Roses\"\x7d",
          chunk "\x7b\"done\":true\x7d"]
          ++ [chunk "\x7b\"type\":\"message\",\"message\":\"late\"\x7d"])
        (StreamEnd.threw "TypeError")
      = runStream sampleParse false (startGeneration initialState)
        [chunk "\x7b\"type\":\"message\",\"message\":\"Roses\"\x7d",
         chunk "\x7b\"done\":true\x7d"] StreamEnd.returned) :=
  ⟨rfl, terminal_is_sticky sampleParse false (startGeneration initialState) _ _ _ _ rfl⟩

theorem applyFrame_error (c : OptimizerState) (ev : StreamEvent) (f : Frame)
    (h : f.type = some "error") :
    applyFrame c ev f
      = ({ c with notices := c.notices ++
                    [Notice.error ((f.message.orElse fun _ => f.error).getD "生成失败")],
                  step := 0, isGenerating := false }, true) := by
  unfold applyFrame
  simp [h]

theorem checkDone_of_done (ev : StreamEvent) (f : Frame) (c : OptimizerState)
    (h : f.done = true ∨ ev.event = some "done") :
    checkDone ev f c = ({ c with step := 2, isGenerating := false }, true) := by
  unfold checkDone
  have : (f.done || decide (ev.event = some "done")) = true := by
    rcases h with h | h <;> simp [h]
  simp only [this, if_true]

theorem applyFrame_done (c : OptimizerState) (ev : StreamEvent) (f : Frame)
    (hty : f.type ≠ some "error") (h : f.done = true ∨ ev.event = some "done") :
    (applyFrame c ev f).1.step = 2 ∧ (applyFrame c ev f).1.isGenerating = false ∧
      (applyFrame c ev f).2 = true := by
  unfold applyFrame
  split_ifs <;> (try split) <;> simp_all [checkDone_of_done]

theorem iteration_sentinel (parse : String → Decoded) (captured : Bool) (c : OptimizerState)
    (ev : StreamEvent) (hc : abortRequested c = false) (hd : ev.data = some "[DONE]")
    (hp : parse "[DONE]" = Decoded.syntaxError) :
    iteration parse captured c ev = ({ c with step := 2, isGenerating := false }, true) := by
  unfold iteration
  simp [hc, hd, hp, fallback]

theorem iteration_error (parse : String → Decoded) (captured : Bool) (c : OptimizerState)
    (ev : StreamEvent) (hc : abortRequested c = false) (he : IsErrorFrame parse ev) :
    (iteration parse captured c ev).1.step = 0 ∧
      (iteration parse captured c ev).1.isGenerating = false ∧
      (iteration parse captured c ev).2 = true := by
  obtain ⟨f, hf, hty⟩ := he
  rw [iteration_of_frame parse captured c ev f hc hf, applyFrame_error c ev f hty]
  exact ⟨rfl, rfl, rfl⟩

theorem iteration_done (parse : String → Decoded) (captured : Bool) (c : OptimizerState)
    (ev : StreamEvent) (hc : abortRequested c = false) (hd : IsDoneFrame parse ev) :
    (iteration parse captured c ev).1.step = 2 ∧
      (iteration parse captured c ev).1.isGenerating = false ∧
      (iteration parse captured c ev).2 = true := by
  rcases hd with ⟨f, hf, hty, hdone⟩ | ⟨hdata, hp⟩
  · rw [iteration_of_frame parse captured c ev f hc hf]
    exact applyFrame_done c ev f hty hdone
  · rw [iteration_sentinel parse captured c ev hc hdata hp]
    exact ⟨rfl, rfl, rfl⟩

theorem consume_of_break (parse : String → Decoded) (captured : Bool) (c : OptimizerState)
    (ev : StreamEvent) (rest : List StreamEvent)
    (h : (iteration parse captured c ev).2 = true) :
    consume parse captured c (ev :: rest) = iteration parse captured c ev := by
  rw [consume_cons]; simp [h]

/-- C5: first terminal wins.  From any generating state, an `error` frame followed by a
done frame ends with `step` 0 and `isGenerating` false, a done frame followed by an
`error` frame ends with `step` 2 and `isGenerating` false, and in both orders the result
is the one of the first frame alone. -/
theorem first_terminal_wins (parse : String → Decoded) (captured : Bool) (c : OptimizerState)
    (err done : StreamEvent) (hc : Generating c) (herr : IsErrorFrame parse err)
    (hdone : IsDoneFrame parse done) :
    ((consume parse captured c [err, done]).1.step = 0 ∧
      (consume parse captured c [err, done]).1.isGenerating = false ∧
      consume parse captured c [err, done] = consume parse captured c [err]) ∧
    ((consume parse captured c [done, err]).1.step = 2 ∧
      (consume parse captured c [done, err]).1.isGenerating = false ∧
      consume parse captured c [done, err] = consume parse captured c [done]) := by
  have he := iteration_error parse captured c err hc.2.2 herr
  have hd := iteration_done parse captured c done hc.2.2 hdone
  rw [consume_of_break parse captured c err [done] he.2.2,
    consume_of_break parse captured c err [] he.2.2,
    consume_of_break parse captured c done [err] hd.2.2,
    consume_of_break parse captured c done [] hd.2.2]
  exact ⟨⟨he.1, he.2.1, rfl⟩, ⟨hd.1, hd.2.1, rfl⟩⟩

/-- The frames `error "rate limited"` and done, in both orders, after a submit. -/
theorem first_terminal_wins_witness :
    Generating (startGeneration initialState) ∧
    IsErrorFrame sampleParse
      (chunk "\x7b\"type\":\"error\",\"message\":\"rate limited\"\x7d") ∧
    IsDoneFrame sampleParse (chunk "\x7b\"done\":true\x7d") ∧
    (((consume sampleParse false (startGeneration initialState)
          [chunk "\x7b\"type\":\"error\",\"message\":\"rate limited\"\x7d",
           chunk "\x7b\"done\":true\x7d"]).1.step = 0 ∧
      (consume sampleParse false (startGeneration initialState)
          [chunk "\x7b\"type\":\"error\",\"message\":\"rate limited\"\x7d",
           chunk "\x7b\"done\":true\x7d"]).1.isGenerating = false ∧
      consume sampleParse false (startGeneration initialState)
          [chunk "\x7b\"type\":\"error\",\"message\":\"rate limited\"\x7d",
           chunk "\x7b\"done\":true\x7d"]
        = consume sampleParse false (startGeneration initialState)
          [chunk "\x7b\"type\":\"error\",\"message\":\"rate limited\"\x7d"]) ∧
     ((consume sampleParse false (startGeneration initialState)
          [chunk "\x7b\"done\":true\x7d",
           chunk "\x7b\"type\":\"error\",\"message\":\"rate limited\"\x7d"]).1.step = 2 ∧
      (consume sampleParse false (startGeneration initialState)
          [chunk "\x7b\"done\":true\x7d",
           chunk "\x7b\"type\":\"error\",\"message\":\"rate limited\"\x7d"]
        ).1.isGenerating = false ∧
      consume sampleParse false (startGeneration initialState)
          [chunk "\x7b\"done\":true\x7d",
           chunk "\x7b\"type\":\"error\",\"message\":\"rate limited\"\x7d"]
        = consume sampleParse false (startGeneration initialState)
          [chunk "\x7b\"done\":true\x7d"])) :=
  have hc : Generating (startGeneration initialState) := ⟨rfl, rfl, rfl⟩
  have he : IsErrorFrame sampleParse
      (chunk "\x7b\"type\":\"error\",\"message\":\"rate limited\"\x7d") :=
    ⟨textFrame "error" "rate limited", rfl, rfl⟩
  have hd : IsDoneFrame sampleParse (chunk "\x7b\"done\":true\x7d") :=
    Or.inl ⟨{ type := none, message := none, error := none, done := true }, rfl,
      by decide, Or.inl rfl⟩
  ⟨hc, he, hd, first_terminal_wins sampleParse false (startGeneration initialState) _ _ hc he hd⟩

/-! ### Chunks that are not JSON -/

/-- C6, evaluated on the code: the fallback reads the `isDeepReasoning` of the render in
which the form was submitted, not the flag of the running session.
(a) From a fresh component the frame `deep-reasoning-start` sets `isDeepReasoning`, and
the chunk `plain text` that follows is appended to `generatedPrompt`, not to
`deepReasoningContent`.
(b) A session that ends on an `error` frame while reasoning is open leaves
`isDeepReasoning` true at `step` 0; in the next session, in which no
`deep-reasoning-start` arrives, the chunk `plain text` is appended to
`deepReasoningContent`. -/
theorem fallback_reads_flag_of_submit_time :
    ((consume sampleParse initialState.isDeepReasoning (startGeneration initialState)
        [chunk "\x7b\"type\":\"deep-reasoning-start\"\x7d"]).1.isDeepReasoning = true ∧
      sampleParse "plain text" = Decoded.syntaxError ∧
      visible (handleSubmit sampleParse poemRequest initialState
          [chunk "\x7b\"type\":\"deep-reasoning-start\"\x7d", chunk "plain text"]
          StreamEnd.returned)
        = (1, true, "plain text", "", "", true, false)) ∧
    (visible (handleSubmit sampleParse poemRequest initialState
          [chunk "\x7b\"type\":\"deep-reasoning-start\"\x7d",
           chunk "\x7b\"type\":\"error\",\"message\":\"rate limited\"\x7d"]
          StreamEnd.returned)
        = (0, false, "", "", "", true, false) ∧
      visible (handleSubmit sampleParse poemRequest
          (handleSubmit sampleParse poemRequest initialState
            [chunk "\x7b\"type\":\"deep-reasoning-start\"\x7d",
             chunk "\x7b\"type\":\"error\",\"message\":\"rate limited\"\x7d"]
            StreamEnd.returned)
          [chunk "plain text"] StreamEnd.returned)
        = (1, true, "", "plain text", "", false, false)) :=
  ⟨⟨rfl, rfl, rfl⟩, ⟨rfl, rfl⟩⟩

theorem append_ne_self (s d : String) (hd : d ≠ "") : s ++ d ≠ s := by
  intro h
  have hl := congrArg String.length h
  rw [String.length_append] at hl
  have h0 : d.length = 0 := by omega
  apply hd
  apply String.ext
  exact List.length_eq_zero.mp h0

theorem iteration_not_json (parse : String → Decoded) (captured : Bool) (c : OptimizerState)
    (ev : StreamEvent) (d : String) (hc : abortRequested c = false) (hd : ev.data = some d)
    (hne : d ≠ "") (hp : parse d = Decoded.syntaxError) :
    iteration parse captured c ev = fallback captured c d := by
  unfold iteration
  simp [hc, hd, hne, hp]

/-- C7: no data loss on malformed chunks.  For every chunk with non-empty data that fails
JSON decoding and is not `[DONE]`, processed in a generating state, exactly one of
`generatedPrompt`, `deepReasoningContent`, `evaluationContent` grows, by exactly the
literal text of the chunk appended at its end, the other two are unchanged, the state is
still generating and the loop goes on. -/
theorem malformed_chunk_kept (parse : String → Decoded) (captured : Bool) (c : OptimizerState)
    (ev : StreamEvent) (d : String) (hc : Generating c) (hd : ev.data = some d)
    (hne : d ≠ "") (hp : parse d = Decoded.syntaxError) (hs : d ≠ "[DONE]") :
    (((iteration parse captured c ev).1.generatedPrompt = c.generatedPrompt ++ d ∧
        (iteration parse captured c ev).1.generatedPrompt ≠ c.generatedPrompt ∧
        (iteration parse captured c ev).1.deepReasoningContent = c.deepReasoningContent ∧
        (iteration parse captured c ev).1.evaluationContent = c.evaluationContent) ∨
      ((iteration parse captured c ev).1.deepReasoningContent = c.deepReasoningContent ++ d ∧
        (iteration parse captured c ev).1.deepReasoningContent ≠ c.deepReasoningContent ∧
        (iteration parse captured c ev).1.generatedPrompt = c.generatedPrompt ∧
        (iteration parse captured c ev).1.evaluationContent = c.evaluationContent) ∨
      ((iteration parse captured c ev).1.evaluationContent = c.evaluationContent ++ d ∧
        (iteration parse captured c ev).1.evaluationContent ≠ c.evaluationContent ∧
        (iteration parse captured c ev).1.generatedPrompt = c.generatedPrompt ∧
        (iteration parse captured c ev).1.deepReasoningContent = c.deepReasoningContent)) ∧
    Generating (iteration parse captured c ev).1 ∧
    (iteration parse captured c ev).2 = false := by
  rw [iteration_not_json parse captured c ev d hc.2.2 hd hne hp]
  unfold fallback
  simp only [hs, ne_eq, not_false_eq_true, if_true]
  cases captured
  · refine ⟨Or.inl ⟨rfl, append_ne_self _ d hne, rfl, rfl⟩, ?_, rfl⟩
    exact hc
  · refine ⟨Or.inr (Or.inl ⟨rfl, append_ne_self _ d hne, rfl, rfl⟩), ?_, rfl⟩
    exact hc

/-- The chunk `plain text` after the frame `message "partial"`. -/
theorem malformed_chunk_kept_witness :
    Generating (consume sampleParse false (startGeneration initialState)
        [chunk "\x7b\"type\":\"message\",\"message\":\"partial\"\x7d"]).1 ∧
    (iteration sampleParse false
        (consume sampleParse false (startGeneration initialState)
          [chunk "\x7b\"type\":\"message\",\"message\":\"partial\"\x7d"]).1
        (chunk "plain text")).1.generatedPrompt = "partialplain text" ∧
    (iteration sampleParse false
        (consume sampleParse false (startGeneration initialState)
          [chunk "\x7b\"type\":\"message\",\"message\":\"partial\"\x7d"]).1
        (chunk "plain text")).2 = false :=
  have hc : Generating (consume sampleParse false (startGeneration initialState)
      [chunk "\x7b\"type\":\"message\",\"message\":\"partial\"\x7d"]).1 := ⟨rfl, rfl, rfl⟩
  have h := malformed_chunk_kept sampleParse false _ (chunk "plain text") "plain text" hc rfl
    (by decide) rfl (by decide)
  ⟨hc, rfl, h.2.2⟩

/-! ### How the stream ends -/

theorem checkDone_open (ev : StreamEvent) (f : Frame) (c : OptimizerState)
    (h : (checkDone ev f c).2 = false) : (checkDone ev f c).1 = c := by
  unfold checkDone at h ⊢
  by_cases hd : (f.done || decide (ev.event = some "done")) = true
  · simp [hd] at h
  · simp [hd]

theorem applyFrame_open (c : OptimizerState) (ev : StreamEvent) (f : Frame)
    (h : (applyFrame c ev f).2 = false) :
    phaseCells (applyFrame c ev f).1 = phaseCells c := by
  unfold applyFrame at h ⊢
  split_ifs at h ⊢ <;> (try split at h) <;> rw [checkDone_open _ _ _ h] <;> rfl

theorem fallback_open (captured : Bool) (c : OptimizerState) (d : String)
    (h : (fallback captured c d).2 = false) :
    phaseCells (fallback captured c d).1 = phaseCells c := by
  unfold fallback at h ⊢
  by_cases hs : d = "[DONE]"
  · simp [hs] at h
  · cases captured <;> simp [hs, phaseCells]

theorem iteration_open (parse : String → Decoded) (captured : Bool) (c : OptimizerState)
    (ev : StreamEvent) (h : (iteration parse captured c ev).2 = false) :
    phaseCells (iteration parse captured c ev).1 = phaseCells c := by
  unfold iteration at h ⊢
  by_cases ha : abortRequested c = true
  · simp [ha] at h
  · simp only [ha, if_false] at h ⊢
    cases hd : ev.data with
    | none => rfl
    | some d =>
      simp only [hd] at h ⊢
      by_cases hd0 : d = ""
      · simp [hd0]
      · simp only [hd0, if_false] at h ⊢
        cases hp : parse d with
        | value f => simp only [hp] at h ⊢; exact applyFrame_open _ _ _ h
        | syntaxError => simp only [hp] at h ⊢; exact fallback_open _ _ _ h
        | nullValue => simp only [hp] at h ⊢; exact fallback_open _ _ _ h

theorem consume_open (parse : String → Decoded) (captured : Bool) :
    ∀ (events : List StreamEvent) (c : OptimizerState),
      (consume parse captured c events).2 = false →
      phaseCells (consume parse captured c events).1 = phaseCells c
  | [], _, _ => rfl
  | ev :: rest, c, h => by
    rw [consume_cons] at h ⊢
    by_cases hb : (iteration parse captured c ev).2 = true
    · simp [hb] at h
    · have hb0 : (iteration parse captured c ev).2 = false := by simpa using hb
      simp only [hb0, Bool.false_eq_true, if_false] at h ⊢
      rw [consume_open parse captured rest _ h]
      exact iteration_open parse captured c ev hb0

/-- C8, evaluated on the code: when the stream ends by returning and the loop was never
left through a `break` (no terminal frame arrived), `handleSubmit` finishes with `step`
still 1 and `isGenerating` still true, and no message has been reported. -/
theorem stream_end_keeps_generating (parse : String → Decoded) (values : FormValues)
    (c : OptimizerState) (events : List StreamEvent)
    (hvalid : promptMissing values = false)
    (hopen : (consume parse c.isDeepReasoning (startGeneration c) events).2 = false) :
    (handleSubmit parse values c events StreamEnd.returned).step = 1 ∧
    (handleSubmit parse values c events StreamEnd.returned).isGenerating = true ∧
    (handleSubmit parse values c events StreamEnd.returned).notices = c.notices := by
  have h := consume_open parse c.isDeepReasoning events (startGeneration c) hopen
  unfold handleSubmit runStream
  simp only [hvalid, Bool.false_eq_true, if_false, hopen, releaseController]
  unfold phaseCells at h
  simp only [Prod.mk.injEq] at h
  exact ⟨h.1, h.2.1, h.2.2⟩

/-- The stream yields `message "partial"` and then returns. -/
theorem stream_end_keeps_generating_witness :
    promptMissing poemRequest = false ∧
    (consume sampleParse initialState.isDeepReasoning (startGeneration initialState)
        [chunk "\x7b\"type\":\"message\",\"message\":\"partial\"\x7d"]).2 = false ∧
    ((handleSubmit sampleParse poemRequest initialState
        [chunk "\x7b\"type\":\"message\",\"message\":\"partial\"\x7d"]
        StreamEnd.returned).step = 1 ∧
      (handleSubmit sampleParse poemRequest initialState
        [chunk "\x7b\"type\":\"message\",\"message\":\"partial\"\x7d"]
        StreamEnd.returned).isGenerating = true ∧
      (handleSubmit sampleParse poemRequest initialState
        [chunk "\x7b\"type\":\"message\",\"message\":\"partial\"\x7d"]
        StreamEnd.returned).notices = initialState.notices) ∧
    visible (handleSubmit sampleParse poemRequest initialState
        [chunk "\x7b\"type\":\"message\",\"message\":\"partial\"\x7d"]
        StreamEnd.returned) = (1, true, "partial", "", "", false, false) :=
  ⟨by decide, rfl,
    stream_end_keeps_generating sampleParse poemRequest initialState _ (by decide) rfl, rfl⟩

/-- C9: a transport failure is equivalent to a single `error` frame.  For every valid form
input, when the stream throws an error other than `AbortError` before any event, the
state (`step`, `isGenerating`, the three buffers, the two flags) is the one that results
when the first event of the stream is an `error` frame: `step` 0, not generating, empty
buffers, flags off. -/
theorem transport_failure_as_error_frame (parse : String → Decoded) (values : FormValues)
    (c : OptimizerState) (name : String) (ev : StreamEvent) (rest : List StreamEvent)
    (ending : StreamEnd) (hvalid : promptMissing values = false)
    (hname : name ≠ "AbortError") (herr : IsErrorFrame parse ev) :
    visible (handleSubmit parse values c [] (StreamEnd.threw name))
        = visible (handleSubmit parse values c (ev :: rest) ending) ∧
    visible (handleSubmit parse values c [] (StreamEnd.threw name))
        = (0, false, "", "", "", false, false) := by
  obtain ⟨f, hf, hty⟩ := herr
  have hit : iteration parse c.isDeepReasoning (startGeneration c) ev
      = applyFrame (startGeneration c) ev f :=
    iteration_of_frame parse _ _ ev f rfl hf
  have hthrow : visible (handleSubmit parse values c [] (StreamEnd.threw name))
      = (0, false, "", "", "", false, false) := by
    unfold handleSubmit runStream
    simp [hvalid, consume, onStreamError, hname, releaseController, visible, startGeneration]
  have hframe : visible (handleSubmit parse values c (ev :: rest) ending)
      = (0, false, "", "", "", false, false) := by
    unfold handleSubmit runStream
    simp only [hvalid, Bool.false_eq_true, if_false]
    rw [consume_cons, hit, applyFrame_error _ ev f hty]
    simp [releaseController, visible, startGeneration]
  exact ⟨hthrow.trans hframe.symm, hthrow⟩

/-- A thrown `TypeError` against the single frame `error "rate limited"`. -/
theorem transport_failure_as_error_frame_witness :
    promptMissing poemRequest = false ∧ "TypeError" ≠ "AbortError" ∧
    IsErrorFrame sampleParse
      (chunk "\x7b\"type\":\"error\",\"message\":\"rate limited\"\x7d") ∧
    (visible (handleSubmit sampleParse poemRequest initialState [] (StreamEnd.threw "TypeError"))
        = visible (handleSubmit sampleParse poemRequest initialState
            (chunk "\x7b\"type\":\"error\",\"message\":\"rate limited\"\x7d" :: [])
            StreamEnd.returned) ∧
      visible (handleSubmit sampleParse poemRequest initialState [] (StreamEnd.threw "TypeError"))
        = (0, false, "", "", "", false, false)) :=
  have he : IsErrorFrame sampleParse
      (chunk "\x7b\"type\":\"error\",\"message\":\"rate limited\"\x7d") :=
    ⟨textFrame "error" "rate limited", rfl, rfl⟩
  ⟨by decide, by decide, he,
    transport_failure_as_error_frame sampleParse poemRequest initialState "TypeError" _ []
      StreamEnd.returned (by decide) (by decide) he⟩

/-! ### The done marker -/

/-- C10 as stated fails: the chunk decodes to a frame of type `error` that carries a
truthy `done` marker; processed in a generating state it ends the session with `step` 0,
not 2. -/
theorem done_marker_on_error_frame :
    frameOf sampleParse
        (chunk "\x7b\"type\":\"error\",\"message\":\"boom\",\"done\":true\x7d")
      = some { type := some "error", message := some "boom", error := none, done := true } ∧
    Generating (startGeneration initialState) ∧
    (iteration sampleParse false (startGeneration initialState)
        (chunk "\x7b\"type\":\"error\",\"message\":\"boom\",\"done\":true\x7d")
      ).1.step = 0 ∧
    (iteration sampleParse false (startGeneration initialState)
        (chunk "\x7b\"type\":\"error\",\"message\":\"boom\",\"done\":true\x7d")
      ).1.step ≠ 2 :=
  ⟨rfl, ⟨rfl, rfl, rfl⟩, rfl, by decide⟩

/-- C10, amended: for every decoded frame that carries a truthy `done` marker, processed in
a generating state, the session ends with `step` 2 and `isGenerating` false when the type
of the frame is anything but `error`, and with `step` 0 and `isGenerating` false when the
type is `error`; in both cases the loop stops. -/
theorem done_marker_completes (parse : String → Decoded) (captured : Bool)
    (c : OptimizerState) (ev : StreamEvent) (f : Frame) (hc : Generating c)
    (hf : frameOf parse ev = some f) (hdone : f.done = true) :
    (f.type ≠ some "error" →
      (iteration parse captured c ev).1.step = 2 ∧
      (iteration parse captured c ev).1.isGenerating = false ∧
      (iteration parse captured c ev).2 = true) ∧
    (f.type = some "error" →
      (iteration parse captured c ev).1.step = 0 ∧
      (iteration parse captured c ev).1.isGenerating = false ∧
      (iteration parse captured c ev).2 = true) := by
  rw [iteration_of_frame parse captured c ev f hc.2.2 hf]
  constructor
  · intro hty
    exact applyFrame_done c ev f hty (Or.inl hdone)
  · intro hty
    rw [applyFrame_error c ev f hty]
    exact ⟨rfl, rfl, rfl⟩

/-- The frame with only a done marker, of no recognised type, after a submit. -/
theorem done_marker_completes_witness :
    Generating (startGeneration initialState) ∧
    frameOf sampleParse (chunk "\x7b\"done\":true\x7d")
      = some { type := none, message := none, error := none, done := true } ∧
    (iteration sampleParse false (startGeneration initialState)
        (chunk "\x7b\"done\":true\x7d")).1.step = 2 ∧
    (iteration sampleParse false (startGeneration initialState)
        (chunk "\x7b\"done\":true\x7d")).1.isGenerating = false ∧
    (iteration sampleParse false (startGeneration initialState)
        (chunk "\x7b\"done\":true\x7d")).2 = true :=
  have hc : Generating (startGeneration initialState) := ⟨rfl, rfl, rfl⟩
  ⟨hc, rfl,
    (done_marker_completes sampleParse false (startGeneration initialState)
      (chunk "\x7b\"done\":true\x7d")
      { type := none, message := none, error := none, done := true } hc rfl rfl).1
      (by decide)⟩

/-! ### The sentinel and the error frame -/

/-- C11: the end-of-stream sentinel always completes.  `JSON.parse` rejects the text
`[DONE]`; for every generating state, an event whose data is exactly `[DONE]` ends the
session with `step` 2 and `isGenerating` false, leaves the three buffers as they were and
leaves the loop. -/
theorem sentinel_completes (parse : String → Decoded) (captured : Bool) (c : OptimizerState)
    (ev : StreamEvent) (hc : Generating c) (hd : ev.data = some "[DONE]")
    (hp : parse "[DONE]" = Decoded.syntaxError) :
    (iteration parse captured c ev).1.step = 2 ∧
    (iteration parse captured c ev).1.isGenerating = false ∧
    (iteration parse captured c ev).1.generatedPrompt = c.generatedPrompt ∧
    (iteration parse captured c ev).1.deepReasoningContent = c.deepReasoningContent ∧
    (iteration parse captured c ev).1.evaluationContent = c.evaluationContent ∧
    (iteration parse captured c ev).2 = true ∧
    ∀ later : List StreamEvent,
      consume parse captured c (ev :: later) = iteration parse captured c ev := by
  have h := iteration_sentinel parse captured c ev hc.2.2 hd hp
  refine ⟨?_, ?_, ?_, ?_, ?_, ?_, ?_⟩
  · rw [h]
  · rw [h]
  · rw [h]
  · rw [h]
  · rw [h]
  · rw [h]
  · intro later
    exact consume_of_break parse captured c ev later (by rw [h])

/-- The sentinel after the frame `message "partial"`. -/
theorem sentinel_completes_witness :
    Generating (consume sampleParse false (startGeneration initialState)
        [chunk "\x7b\"type\":\"message\",\"message\":\"partial\"\x7d"]).1 ∧
    sampleParse "[DONE]" = Decoded.syntaxError ∧
    visible (iteration sampleParse false
        (consume sampleParse false (startGeneration initialState)
          [chunk "\x7b\"type\":\"message\",\"message\":\"partial\"\x7d"]).1
        (chunk "[DONE]")).1 = (2, false, "partial", "", "", false, false) ∧
    (iteration sampleParse false
        (consume sampleParse false (startGeneration initialState)
          [chunk "\x7b\"type\":\"message\",\"message\":\"partial\"\x7d"]).1
        (chunk "[DONE]")).2 = true :=
  have hc : Generating (consume sampleParse false (startGeneration initialState)
      [chunk "\x7b\"type\":\"message\",\"message\":\"partial\"\x7d"]).1 := ⟨rfl, rfl, rfl⟩
  ⟨hc, rfl, rfl,
    (sentinel_completes sampleParse false _ (chunk "[DONE]") hc rfl rfl).2.2.2.2.2.1⟩

/-- C12: an `error` frame fails the session and keeps the buffers.  For every generating
state and every `error` frame that carries the message `m`, the session ends with `step`
0 and `isGenerating` false, the message reported through `message.error` is `m`, the
three buffers are what they were, and the loop is left. -/
theorem error_frame_fails_and_keeps_buffers (parse : String → Decoded) (captured : Bool)
    (c : OptimizerState) (ev : StreamEvent) (f : Frame) (m : String) (hc : Generating c)
    (hf : frameOf parse ev = some f) (hty : f.type = some "error")
    (hm : f.message = some m) :
    (iteration parse captured c ev).1.step = 0 ∧
    (iteration parse captured c ev).1.isGenerating = false ∧
    (iteration parse captured c ev).1.notices = c.notices ++ [Notice.error m] ∧
    (iteration parse captured c ev).1.generatedPrompt = c.generatedPrompt ∧
    (iteration parse captured c ev).1.deepReasoningContent = c.deepReasoningContent ∧
    (iteration parse captured c ev).1.evaluationContent = c.evaluationContent ∧
    (iteration parse captured c ev).2 = true := by
  rw [iteration_of_frame parse captured c ev f hc.2.2 hf, applyFrame_error c ev f hty]
  simp [hm]

/-- Scenario D, after the frame `message "partial"`: the frame `error "rate limited"`. -/
theorem error_frame_fails_and_keeps_buffers_witness :
    Generating (consume sampleParse false (startGeneration initialState)
        [chunk "\x7b\"type\":\"message\",\"message\":\"partial\"\x7d"]).1 ∧
    frameOf sampleParse (chunk "\x7b\"type\":\"error\",\"message\":\"rate limited\"\x7d")
      = some (textFrame "error" "rate limited") ∧
    visible (iteration sampleParse false
        (consume sampleParse false (startGeneration initialState)
          [chunk "\x7b\"type\":\"message\",\"message\":\"partial\"\x7d"]).1
        (chunk "\x7b\"type\":\"error\",\"message\":\"rate limited\"\x7d")).1
      = (0, false, "partial", "", "", false, false) ∧
    (iteration sampleParse false
        (consume sampleParse false (startGeneration initialState)
          [chunk "\x7b\"type\":\"message\",\"message\":\"partial\"\x7d"]).1
        (chunk "\x7b\"type\":\"error\",\"message\":\"rate limited\"\x7d")).1.notices
      = [] ++ [Notice.error "rate limited"] :=
  have hc : Generating (consume sampleParse false (startGeneration initialState)
      [chunk "\x7b\"type\":\"message\",\"message\":\"partial\"\x7d"]).1 := ⟨rfl, rfl, rfl⟩
  ⟨hc, rfl, rfl,
    (error_frame_fails_and_keeps_buffers sampleParse false _
      (chunk "\x7b\"type\":\"error\",\"message\":\"rate limited\"\x7d")
      (textFrame "error" "rate limited") "rate limited" hc rfl rfl rfl).2.2.1⟩

/-! ### Validation -/

theorem promptMissing_of_blank (values : FormValues) (h : BlankPrompt values) :
    promptMissing values = true := by
  unfold promptMissing
  rcases h with h | ⟨p, hp, hall⟩
  · rw [h]
  · rw [hp]
    have hdrop : p.data.dropWhile jsIsWhiteSpace = [] :=
      List.dropWhile_eq_nil_iff.mpr hall
    simp [jsTrim, hdrop]

/-- C13: an empty prompt never starts a session.  For every form input whose prompt is
missing, empty or only white space, `handleSubmit` reports the validation message and
returns: the state is the previous one with that message added (so `step`,
`isGenerating`, the buffers, the flags and the controller reference are unchanged,
whatever the stream would have delivered), no generate function is called and no call is
left awaiting events. -/
theorem blank_prompt_starts_nothing (parse : String → Decoded) (values : FormValues)
    (c : OptimizerState) (events : List StreamEvent) (ending : StreamEnd)
    (hblank : BlankPrompt values) :
    handleSubmit parse values c events ending
        = { c with notices := c.notices ++ [Notice.error "请输入要优化的提示词"] } ∧
    visible (handleSubmit parse values c events ending) = visible c ∧
    (handleSubmit parse values c events ending).abortController = c.abortController ∧
    generateCall values = none ∧
    (Session.start values c).awaiting = false := by
  have h := promptMissing_of_blank values hblank
  refine ⟨?_, ?_, ?_, ?_, ?_⟩
  · simp [handleSubmit, h]
  · simp [handleSubmit, h, visible]
  · simp [handleSubmit, h]
  · simp [generateCall, h]
  · simp [Session.start, h]

/-- A prompt of two blanks and a line feed, submitted while a stream would deliver text. -/
theorem blank_prompt_starts_nothing_witness :
    BlankPrompt { poemRequest with prompt := some "  \n" } ∧
    handleSubmit sampleParse { poemRequest with prompt := some "  \n" } initialState
        [chunk "plain text"] StreamEnd.returned
      = { initialState with notices := [Notice.error "请输入要优化的提示词"] } :=
  have hb : BlankPrompt { poemRequest with prompt := some "  \n" } :=
    Or.inr ⟨"  \n", rfl, by decide⟩
  ⟨hb, (blank_prompt_starts_nothing sampleParse _ initialState [chunk "plain text"]
    StreamEnd.returned hb).1⟩

/-! ### Saving -/

/-- C14 as stated fails: after the run `[done]` the session is completed with an empty
`generatedPrompt`; confirming the save calls `createPrompt` once, with content `""`, and
what is reported is the success message. -/
theorem empty_result_is_submitted :
    Completed (handleSubmit sampleParse poemRequest initialState
        [chunk "\x7b\"done\":true\x7d"] StreamEnd.returned) ∧
    (handleSubmit sampleParse poemRequest initialState
        [chunk "\x7b\"done\":true\x7d"] StreamEnd.returned).generatedPrompt = "" ∧
    (confirmSave sampleDialog (fun _ => false)
        (handleSubmit sampleParse poemRequest initialState
          [chunk "\x7b\"done\":true\x7d"] StreamEnd.returned)).submitted
      = [saveData sampleDialog ""] ∧
    (confirmSave sampleDialog (fun _ => false)
        (handleSubmit sampleParse poemRequest initialState
          [chunk "\x7b\"done\":true\x7d"] StreamEnd.returned)).submitted ≠ [] ∧
    (confirmSave sampleDialog (fun _ => false)
        (handleSubmit sampleParse poemRequest initialState
          [chunk "\x7b\"done\":true\x7d"] StreamEnd.returned)).ui.notices
      = [Notice.success "提示词保存成功"] :=
  ⟨⟨rfl, rfl⟩, rfl, rfl, by decide, rfl⟩

/-- C14, amended: when the session is completed and `generatedPrompt` is empty, confirming
the save calls `createPrompt` exactly once, with a record whose content is `""`; a failure
is reported (`保存提示词失败`, state otherwise unchanged) exactly when `createPrompt`
throws, and otherwise the success message is reported and the component is reset. -/
theorem empty_result_save (dialog : SaveDialog) (createPromptThrows : SaveData → Bool)
    (c : OptimizerState) (hc : Completed c) (hempty : c.generatedPrompt = "") :
    (confirmSave dialog createPromptThrows c).submitted = [saveData dialog ""] ∧
    (saveData dialog "").content = "" ∧
    (createPromptThrows (saveData dialog "") = true →
      (confirmSave dialog createPromptThrows c).ui
        = { c with notices := c.notices ++ [Notice.error "保存提示词失败"] }) ∧
    (createPromptThrows (saveData dialog "") = false →
      (confirmSave dialog createPromptThrows c).ui.notices
          = c.notices ++ [Notice.success "提示词保存成功"] ∧
      visible (confirmSave dialog createPromptThrows c).ui
          = (0, false, "", "", "", false, false)) := by
  unfold confirmSave
  rw [hempty]
  refine ⟨?_, rfl, ?_, ?_⟩
  · by_cases h : createPromptThrows (saveData dialog "") = true <;> simp [h]
  · intro h
    simp [h]
  · intro h
    obtain ⟨_, _, _, _, _, _, _, ctl, _⟩ := c
    obtain ⟨_, hg⟩ := hc
    simp only at hg hempty
    subst hg
    cases ctl <;> simp [h, handleCancel, resetState, abortAndClear, visible]

/-- The completed, empty session of the run `[done]`, saved with a store that accepts. -/
theorem empty_result_save_witness :
    Completed (handleSubmit sampleParse poemRequest initialState
        [chunk "\x7b\"done\":true\x7d"] StreamEnd.returned) ∧
    (handleSubmit sampleParse poemRequest initialState
        [chunk "\x7b\"done\":true\x7d"] StreamEnd.returned).generatedPrompt = "" ∧
    (confirmSave sampleDialog (fun _ => false)
        (handleSubmit sampleParse poemRequest initialState
          [chunk "\x7b\"done\":true\x7d"] StreamEnd.returned)).submitted
      = [saveData sampleDialog ""] :=
  ⟨⟨rfl, rfl⟩, rfl,
    (empty_result_save sampleDialog (fun _ => false) _ ⟨rfl, rfl⟩ rfl).1⟩

/-- C15: the save request carries the final text and one required variable.  For every
completed session, confirming the save hands exactly one record to `createPrompt`; its
content is the `generatedPrompt` of the session and its variables are the single entry
`user_input`, of type `string`, with `required` true. -/
theorem save_record_shape (dialog : SaveDialog) (createPromptThrows : SaveData → Bool)
    (c : OptimizerState) (hc : Completed c) :
    ∃ record : SaveData, ∃ spec : VariableSpec,
      (confirmSave dialog createPromptThrows c).submitted = [record] ∧
      record.content = c.generatedPrompt ∧
      record.variableMap = [("user_input", spec)] ∧
      spec.type = "string" ∧ spec.required = true := by
  have _ := hc
  refine ⟨saveData dialog c.generatedPrompt,
    { type := "string", description := "用户输入", required := true }, ?_, rfl, rfl, rfl, rfl⟩
  unfold confirmSave
  by_cases h : createPromptThrows (saveData dialog c.generatedPrompt) = true <;> simp [h]

/-- The session of Scenario A, saved. -/
theorem save_record_shape_witness :
    Completed (handleSubmit sampleParse poemRequest initialState
        [chunk "\x7b\"type\":\"message\",\"message\":\"Roses\"\x7d",
         chunk "\x7b\"type\":\"message\",\"message\":\" are red\"\x7d",
         chunk "\x7b\"done\":true\x7d"] StreamEnd.returned) ∧
    (∃ record : SaveData, ∃ spec : VariableSpec,
      (confirmSave sampleDialog (fun _ => false)
        (handleSubmit sampleParse poemRequest initialState
          [chunk "\x7b\"type\":\"message\",\"message\":\"Roses\"\x7d",
           chunk "\x7b\"type\":\"message\",\"message\":\" are red\"\x7d",
           chunk "\x7b\"done\":true\x7d"] StreamEnd.returned)).submitted = [record] ∧
      record.content = (handleSubmit sampleParse poemRequest initialState
          [chunk "\x7b\"type\":\"message\",\"message\":\"Roses\"\x7d",
           chunk "\x7b\"type\":\"message\",\"message\":\" are red\"\x7d",
           chunk "\x7b\"done\":true\x7d"] StreamEnd.returned).generatedPrompt ∧
      record.variableMap = [("user_input", spec)] ∧
      spec.type = "string" ∧ spec.required = true) ∧
    (saveData sampleDialog "Roses are red").content = "Roses are red" :=
  ⟨⟨rfl, rfl⟩, save_record_shape sampleDialog (fun _ => false) _ ⟨rfl, rfl⟩, rfl⟩

/-! ### Cancel twice, submit twice -/

/-- C17: cancel is idempotent.  For every component state, `handleGenerationCancel`
invoked twice in a row leaves the state (`step`, `isGenerating`, the buffers, the flags,
the controller reference, and the reported messages) that one invocation leaves. -/
theorem cancel_idempotent (c : OptimizerState) :
    handleGenerationCancel (handleGenerationCancel c) = handleGenerationCancel c ∧
    visible (handleGenerationCancel (handleGenerationCancel c))
      = visible (handleGenerationCancel c) ∧
    (handleGenerationCancel (handleGenerationCancel c)).abortController
      = (handleGenerationCancel c).abortController := by
  have h : handleGenerationCancel (handleGenerationCancel c) = handleGenerationCancel c := by
    obtain ⟨_, _, _, _, _, _, _, ctl, _⟩ := c
    cases ctl <;> rfl
  exact ⟨h, by rw [h], by rw [h]⟩

/-- C18, evaluated on the code: the state a previous session left influences the next one.
The same form input and the same stream, one chunk `plain text`, are run from a fresh
component and from the state left by a session that ended on an `error` frame while
reasoning was open (`step` 0, `isDeepReasoning` true): the first run ends with
`generatedPrompt = "plain text"`, the second with `deepReasoningContent = "plain text"`. -/
theorem previous_session_leaks :
    visible (handleSubmit sampleParse poemRequest initialState
        [chunk "\x7b\"type\":\"deep-reasoning-start\"\x7d",
         chunk "\x7b\"type\":\"error\",\"message\":\"rate limited\"\x7d"]
        StreamEnd.returned)
      = (0, false, "", "", "", true, false) ∧
    visible (handleSubmit sampleParse poemRequest initialState
        [chunk "plain text"] StreamEnd.returned)
      = (1, true, "plain text", "", "", false, false) ∧
    visible (handleSubmit sampleParse poemRequest
        (handleSubmit sampleParse poemRequest initialState
          [chunk "\x7b\"type\":\"deep-reasoning-start\"\x7d",
           chunk "\x7b\"type\":\"error\",\"message\":\"rate limited\"\x7d"]
          StreamEnd.returned)
        [chunk "plain text"] StreamEnd.returned)
      = (1, true, "", "plain text", "", false, false) ∧
    visible (handleSubmit sampleParse poemRequest initialState
        [chunk "plain text"] StreamEnd.returned)
      ≠ visible (handleSubmit sampleParse poemRequest
        (handleSubmit sampleParse poemRequest initialState
          [chunk "\x7b\"type\":\"deep-reasoning-start\"\x7d",
           chunk "\x7b\"type\":\"error\",\"message\":\"rate limited\"\x7d"]
          StreamEnd.returned)
        [chunk "plain text"] StreamEnd.returned) :=
  ⟨rfl, rfl, rfl, by decide⟩

/-! ### The reasoning window -/

theorem checkDone_flags (ev : StreamEvent) (f : Frame) (c : OptimizerState) :
    (checkDone ev f c).1.isDeepReasoning = c.isDeepReasoning ∧
    (checkDone ev f c).1.isEvaluating = c.isEvaluating := by
  unfold checkDone
  split_ifs <;> simp

theorem applyFrame_isDeepReasoning (c : OptimizerState) (ev : StreamEvent) (f : Frame) :
    (applyFrame c ev f).1.isDeepReasoning = reasoningAfter c.isDeepReasoning f.type := by
  unfold applyFrame reasoningAfter
  split_ifs <;> (try split) <;> simp_all [checkDone_flags]

theorem frameType_of_frame (parse : String → Decoded) (ev : StreamEvent) (f : Frame)
    (hf : frameOf parse ev = some f) : frameType parse ev = f.type := by
  unfold frameType
  rw [hf]

theorem isTerminalFrame_of_frame (parse : String → Decoded) (c : OptimizerState)
    (ev : StreamEvent) (f : Frame) (hf : frameOf parse ev = some f) :
    isTerminalFrame parse ev = (applyFrame c ev f).2 := by
  rw [applyFrame_break]
  unfold isTerminalFrame
  rw [hf]

theorem consume_append_open (parse : String → Decoded) (captured : Bool) :
    ∀ (pre post : List StreamEvent) (c : OptimizerState),
      (consume parse captured c pre).2 = false →
      consume parse captured c (pre ++ post)
        = consume parse captured (consume parse captured c pre).1 post
  | [], _, _, _ => rfl
  | ev :: rest, post, c, h => by
    rw [List.cons_append, consume_cons]
    rw [consume_cons] at h ⊢
    by_cases hb : (iteration parse captured c ev).2 = true
    · simp [hb] at h
    · have hb0 : (iteration parse captured c ev).2 = false := by simpa using hb
      simp only [hb0, Bool.false_eq_true, if_false] at h ⊢
      exact consume_append_open parse captured rest post _ h

theorem consume_body (parse : String → Decoded) (captured : Bool) :
    ∀ (body : List StreamEvent) (c : OptimizerState),
      (∀ ev ∈ body, (frameOf parse ev).isSome = true) →
      (∀ ev ∈ body, isTerminalFrame parse ev = false) →
      abortRequested c = false →
      (consume parse captured c body).2 = false ∧
      abortRequested (consume parse captured c body).1 = false ∧
      (consume parse captured c body).1.isDeepReasoning
        = (body.map (frameType parse)).foldl reasoningAfter c.isDeepReasoning
  | [], _, _, _, hc => ⟨rfl, hc, rfl⟩
  | ev :: rest, c, hall, hnt, hc => by
    obtain ⟨f, hf⟩ := Option.isSome_iff_exists.mp (hall ev (List.mem_cons_self _ _))
    have hit := iteration_of_frame parse captured c ev f hc hf
    have hb : (applyFrame c ev f).2 = false := by
      rw [← isTerminalFrame_of_frame parse c ev f hf]
      exact hnt ev (List.mem_cons_self _ _)
    have hc1 : abortRequested (applyFrame c ev f).1 = false := by
      unfold abortRequested at hc ⊢
      rw [applyFrame_abortController]; exact hc
    have ih := consume_body parse captured rest (applyFrame c ev f).1
      (fun e he => hall e (List.mem_cons_of_mem _ he))
      (fun e he => hnt e (List.mem_cons_of_mem _ he)) hc1
    rw [consume_cons, hit]
    simp only [hb, Bool.false_eq_true, if_false, List.map_cons, List.foldl_cons]
    rw [frameType_of_frame parse ev f hf, ← applyFrame_isDeepReasoning c ev f]
    exact ih

theorem closed_fold : ∀ ts : List (Option String), EachStartClosed ts →
    (some "deep-reasoning-end" ∈ ts → ∀ b, ts.foldl reasoningAfter b = false) ∧
    ts.foldl reasoningAfter false = false
  | [], _ => ⟨fun h => by simp at h, rfl⟩
  | t :: rest, h => by
    obtain ⟨hstart, hrest⟩ := h
    have ih := closed_fold rest hrest
    by_cases h1 : t = some "deep-reasoning-start"
    · have hend := ih.1 (hstart h1)
      refine ⟨fun _ b => ?_, ?_⟩
      · rw [List.foldl_cons]; exact hend _
      · rw [List.foldl_cons]; exact hend _
    · by_cases h2 : t = some "deep-reasoning-end"
      · have hfalse : ∀ b, reasoningAfter b t = false := by
          intro b; simp [reasoningAfter, h2]
        refine ⟨fun _ b => ?_, ?_⟩
        · rw [List.foldl_cons, hfalse]; exact ih.2
        · rw [List.foldl_cons, hfalse]; exact ih.2
      · have hsame : ∀ b, reasoningAfter b t = b := by
          intro b; simp [reasoningAfter, h1, h2]
        refine ⟨fun hmem b => ?_, ?_⟩
        · rw [List.foldl_cons, hsame]
          have hmem2 : some "deep-reasoning-end" ∈ rest := by
            rcases List.mem_cons.mp hmem with h | h
            · exact absurd h.symm h2
            · exact h
          exact ih.1 hmem2 b
        · rw [List.foldl_cons, hsame]; exact ih.2

theorem throughFirstTerminal_body (parse : String → Decoded) (last : StreamEvent)
    (hlast : isTerminalFrame parse last = true) :
    ∀ body : List StreamEvent, (∀ ev ∈ body, isTerminalFrame parse ev = false) →
      throughFirstTerminal parse (body ++ [last]) = body ++ [last]
  | [], _ => by simp [throughFirstTerminal, hlast]
  | ev :: rest, h => by
    have h0 := h ev (List.mem_cons_self _ _)
    rw [List.cons_append, throughFirstTerminal]
    simp only [h0, Bool.false_eq_true, if_false]
    rw [throughFirstTerminal_body parse last hlast rest
      (fun e he => h e (List.mem_cons_of_mem _ he))]

/-- C16: reasoning is a sub-window that closes cleanly.  For every valid form input and
every run of decoded frames that ends with a done frame, has no terminal frame before it,
and in which each `deep-reasoning-start` is followed by a `deep-reasoning-end`, when
`handleSubmit` is over `isDeepReasoning` is false, `deepReasoningContent` is the
concatenation of the `deep-reasoning` deltas and of nothing else, `generatedPrompt` that
of the `message` deltas and of nothing else, `evaluationContent` that of the `evaluate`
deltas, and the session is completed (`step` 2, `isGenerating` false). -/
theorem reasoning_window_closes (parse : String → Decoded) (values : FormValues)
    (c : OptimizerState) (body : List StreamEvent) (last : StreamEvent) (ending : StreamEnd)
    (hvalid : promptMissing values = false)
    (hframes : ∀ ev ∈ body ++ [last], (frameOf parse ev).isSome = true)
    (hbody : ∀ ev ∈ body, isTerminalFrame parse ev = false)
    (hlast : IsDoneFrame parse last)
    (hclosed : EachStartClosed ((body ++ [last]).map (frameType parse))) :
    (handleSubmit parse values c (body ++ [last]) ending).isDeepReasoning = false ∧
    (handleSubmit parse values c (body ++ [last]) ending).deepReasoningContent
      = deltas parse "deep-reasoning" (body ++ [last]) ∧
    (handleSubmit parse values c (body ++ [last]) ending).generatedPrompt
      = deltas parse "message" (body ++ [last]) ∧
    (handleSubmit parse values c (body ++ [last]) ending).evaluationContent
      = deltas parse "evaluate" (body ++ [last]) ∧
    Completed (handleSubmit parse values c (body ++ [last]) ending) := by
  obtain ⟨f, hf⟩ := Option.isSome_iff_exists.mp (hframes last (by simp))
  have hbodyframes : ∀ ev ∈ body, (frameOf parse ev).isSome = true :=
    fun ev he => hframes ev (List.mem_append_left _ he)
  have hb := consume_body parse c.isDeepReasoning body (startGeneration c) hbodyframes hbody rfl
  have hdone := iteration_done parse c.isDeepReasoning
    (consume parse c.isDeepReasoning (startGeneration c) body).1 last hb.2.1 hlast
  have hterm : isTerminalFrame parse last = true := by
    rw [isTerminalFrame_of_frame parse
      (consume parse c.isDeepReasoning (startGeneration c) body).1 last f hf,
      ← iteration_of_frame parse c.isDeepReasoning _ last f hb.2.1 hf]
    exact hdone.2.2
  have hcons : consume parse c.isDeepReasoning (startGeneration c) (body ++ [last])
      = iteration parse c.isDeepReasoning
          (consume parse c.isDeepReasoning (startGeneration c) body).1 last := by
    rw [consume_append_open parse c.isDeepReasoning body [last] _ hb.1]
    exact consume_of_break parse c.isDeepReasoning _ last [] hdone.2.2
  have hbuf := runStream_buffers parse c.isDeepReasoning (startGeneration c)
    (body ++ [last]) ending
  have hlaw := consume_frames parse c.isDeepReasoning (body ++ [last]) (startGeneration c)
    hframes rfl
  rw [throughFirstTerminal_body parse last hterm body hbody] at hlaw
  have hrun : handleSubmit parse values c (body ++ [last]) ending
      = releaseController (iteration parse c.isDeepReasoning
          (consume parse c.isDeepReasoning (startGeneration c) body).1 last).1 := by
    unfold handleSubmit runStream
    simp only [hvalid, Bool.false_eq_true, if_false, hcons, hdone.2.2, if_true]
  have hflag : (iteration parse c.isDeepReasoning
      (consume parse c.isDeepReasoning (startGeneration c) body).1 last).1.isDeepReasoning
        = false := by
    rw [iteration_of_frame parse c.isDeepReasoning _ last f hb.2.1 hf,
      applyFrame_isDeepReasoning, hb.2.2, ← frameType_of_frame parse last f hf]
    have h := (closed_fold _ hclosed).2
    rw [List.map_append, List.foldl_append] at h
    simpa [startGeneration] using h
  refine ⟨?_, ?_, ?_, ?_, ?_⟩
  · rw [hrun]; exact hflag
  · unfold handleSubmit
    simp only [hvalid, Bool.false_eq_true, if_false]
    rw [hbuf.2.1, hlaw.2.1]; simp [startGeneration]
  · unfold handleSubmit
    simp only [hvalid, Bool.false_eq_true, if_false]
    rw [hbuf.1, hlaw.1]; simp [startGeneration]
  · unfold handleSubmit
    simp only [hvalid, Bool.false_eq_true, if_false]
    rw [hbuf.2.2, hlaw.2.2]; simp [startGeneration]
  · rw [hrun]; exact ⟨hdone.1, hdone.2.1⟩

/-- Scenario B: reasoning-start, reasoning "thinking...", reasoning-end, message "Result",
done. -/
theorem reasoning_window_closes_witness :
    promptMissing poemRequest = false ∧
    (∀ ev ∈ [chunk "\x7b\"type\":\"deep-reasoning-start\"\x7d",
              chunk "\x7b\"type\":\"deep-reasoning\",\"message\":\"thinking...\"\x7d",
              chunk "\x7b\"type\":\"deep-reasoning-end\"\x7d",
              chunk "\x7b\"type\":\"message\",\"message\":\"Result\"\x7d"]
            ++ [chunk "\x7b\"done\":true\x7d"], (frameOf sampleParse ev).isSome = true) ∧
    (∀ ev ∈ [chunk "\x7b\"type\":\"deep-reasoning-start\"\x7d",
              chunk "\x7b\"type\":\"deep-reasoning\",\"message\":\"thinking...\"\x7d",
              chunk "\x7b\"type\":\"deep-reasoning-end\"\x7d",
              chunk "\x7b\"type\":\"message\",\"message\":\"Result\"\x7d"],
        isTerminalFrame sampleParse ev = false) ∧
    IsDoneFrame sampleParse (chunk "\x7b\"done\":true\x7d") ∧
    EachStartClosed
      (([chunk "\x7b\"type\":\"deep-reasoning-start\"\x7d",
          chunk "\x7b\"type\":\"deep-reasoning\",\"message\":\"thinking...\"\x7d",
          chunk "\x7b\"type\":\"deep-reasoning-end\"\x7d",
          chunk "\x7b\"type\":\"message\",\"message\":\"Result\"\x7d"]
        ++ [chunk "\x7b\"done\":true\x7d"]).map (frameType sampleParse)) ∧
    Completed (handleSubmit sampleParse poemRequest initialState
        ([chunk "\x7b\"type\":\"deep-reasoning-start\"\x7d",
          chunk "\x7b\"type\":\"deep-reasoning\",\"message\":\"thinking...\"\x7d",
          chunk "\x7b\"type\":\"deep-reasoning-end\"\x7d",
          chunk "\x7b\"type\":\"message\",\"message\":\"Result\"\x7d"]
        ++ [chunk "\x7b\"done\":true\x7d"]) StreamEnd.returned) ∧
    visible (handleSubmit sampleParse poemRequest initialState
        ([chunk "\x7b\"type\":\"deep-reasoning-start\"\x7d",
          chunk "\x7b\"type\":\"deep-reasoning\",\"message\":\"thinking...\"\x7d",
          chunk "\x7b\"type\":\"deep-reasoning-end\"\x7d",
          chunk "\x7b\"type\":\"message\",\"message\":\"Result\"\x7d"]
        ++ [chunk "\x7b\"done\":true\x7d"]) StreamEnd.returned)
      = (2, false, "Result", "thinking...", "", false, false) :=
  have hd : IsDoneFrame sampleParse (chunk "\x7b\"done\":true\x7d") :=
    Or.inl ⟨{ type := none, message := none, error := none, done := true }, rfl,
      by decide, Or.inl rfl⟩
  ⟨by decide, by decide, by decide, hd, by decide,
    (reasoning_window_closes sampleParse poemRequest initialState _ _ StreamEnd.returned
      (by decide) (by decide) (by decide) hd (by decide)).2.2.2.2,
    rfl⟩

/-! ### Two calls of `handleSubmit` -/

/-- C19, evaluated on the code: a second `handleSubmit` does not retire the first.  Submit,
let the stream yield `message "partial"`, click cancel (`step` is 0 again and the form is
back), submit again: both calls are awaiting events.  The event `message "late"` that the
stream of the first call yields next is applied to the state of the second session, whose
`generatedPrompt` becomes `"late"`. -/
theorem previous_stream_still_writes :
    (Page.run sampleParse Page.initial
        [Action.submit poemRequest,
         Action.yields 0 (chunk "\x7b\"type\":\"message\",\"message\":\"partial\"\x7d"),
         Action.cancelGeneration,
         Action.submit poemRequest]).calls
      = [{ captured := false, awaiting := true }, { captured := false, awaiting := true }] ∧
    visible (Page.run sampleParse Page.initial
        [Action.submit poemRequest,
         Action.yields 0 (chunk "\x7b\"type\":\"message\",\"message\":\"partial\"\x7d"),
         Action.cancelGeneration,
         Action.submit poemRequest]).ui
      = (1, true, "", "", "", false, false) ∧
    visible (Page.run sampleParse Page.initial
        [Action.submit poemRequest,
         Action.yields 0 (chunk "\x7b\"type\":\"message\",\"message\":\"partial\"\x7d"),
         Action.cancelGeneration,
         Action.submit poemRequest,
         Action.yields 0 (chunk "\x7b\"type\":\"message\",\"message\":\"late\"\x7d")]).ui
      = (1, true, "late", "", "", false, false) :=
  ⟨rfl, rfl, rfl⟩

/-! ### The transition table -/

theorem checkDone_of_not_done (ev : StreamEvent) (f : Frame) (c : OptimizerState)
    (hd : f.done = false) (he : ev.event ≠ some "done") :
    checkDone ev f c = (c, false) := by
  unfold checkDone
  simp [hd, he]

theorem not_terminal_parts (parse : String → Decoded) (ev : StreamEvent) (f : Frame)
    (hf : frameOf parse ev = some f) (hnt : isTerminalFrame parse ev = false) :
    f.type ≠ some "error" ∧ f.done = false ∧ ev.event ≠ some "done" := by
  unfold isTerminalFrame at hnt
  rw [hf] at hnt
  simpa [not_or, and_assoc] using hnt

/-- C20: each non-terminal frame changes only the cell the transition table names.  For a
decoded frame that is not terminal (no `done` marker, not in an event named `done`, not
an `error` frame), the iteration goes on and the state is the previous one with:
`isDeepReasoning` set to true / false for `deep-reasoning-start` / `deep-reasoning-end`,
`isEvaluating` set to true / false for `evaluate-start` / `evaluate-end`, the message
appended to `deepReasoningContent`, `evaluationContent`, `generatedPrompt` for
`deep-reasoning`, `evaluate`, `message`; every other cell, `step` and `isGenerating`
included, is unchanged. -/
theorem nonterminal_frame_effect (parse : String → Decoded) (captured : Bool)
    (c : OptimizerState) (ev : StreamEvent) (f : Frame) (hc : abortRequested c = false)
    (hf : frameOf parse ev = some f) (hnt : isTerminalFrame parse ev = false) :
    (f.type = some "deep-reasoning-start" →
      iteration parse captured c ev = ({ c with isDeepReasoning := true }, false)) ∧
    (f.type = some "deep-reasoning-end" →
      iteration parse captured c ev = ({ c with isDeepReasoning := false }, false)) ∧
    (f.type = some "deep-reasoning" →
      iteration parse captured c ev
        = ({ c with deepReasoningContent := c.deepReasoningContent ++ f.message.getD "" },
            false)) ∧
    (f.type = some "evaluate-start" →
      iteration parse captured c ev = ({ c with isEvaluating := true }, false)) ∧
    (f.type = some "evaluate-end" →
      iteration parse captured c ev = ({ c with isEvaluating := false }, false)) ∧
    (f.type = some "evaluate" →
      iteration parse captured c ev
        = ({ c with evaluationContent := c.evaluationContent ++ f.message.getD "" },
            false)) ∧
    (f.type = some "message" →
      iteration parse captured c ev
        = ({ c with generatedPrompt := c.generatedPrompt ++ f.message.getD "" }, false)) := by
  obtain ⟨_, hd, he⟩ := not_terminal_parts parse ev f hf hnt
  rw [iteration_of_frame parse captured c ev f hc hf]
  refine ⟨?_, ?_, ?_, ?_, ?_, ?_, ?_⟩ <;> intro h <;> unfold applyFrame <;>
    cases hm : f.message <;> simp [h, hm, checkDone_of_not_done _ _ _ hd he]

/-- The frame `message "partial"` after a submit: only `generatedPrompt` changes. -/
theorem nonterminal_frame_effect_witness :
    abortRequested (startGeneration initialState) = false ∧
    frameOf sampleParse (chunk "\x7b\"type\":\"message\",\"message\":\"partial\"\x7d")
      = some (textFrame "message" "partial") ∧
    isTerminalFrame sampleParse
      (chunk "\x7b\"type\":\"message\",\"message\":\"partial\"\x7d") = false ∧
    iteration sampleParse false (startGeneration initialState)
        (chunk "\x7b\"type\":\"message\",\"message\":\"partial\"\x7d")
      = ({ startGeneration initialState with
            generatedPrompt := (startGeneration initialState).generatedPrompt
              ++ (textFrame "message" "partial").message.getD "" }, false) :=
  ⟨rfl, rfl, rfl,
    (nonterminal_frame_effect sampleParse false (startGeneration initialState)
      (chunk "\x7b\"type\":\"message\",\"message\":\"partial\"\x7d")
      (textFrame "message" "partial") rfl rfl rfl).2.2.2.2.2.2 rfl⟩

end PromptOptimizer

namespace PromptOptimizer

/-! ### The generate call -/

/-- C21: the category selects the endpoint and nothing else.  For every valid form input
`handleSubmit` makes exactly one generate call; the function called is
`generateFunctionCallingPrompt` for `function-calling`, `generateImagePrompt` for `image`
and `generatePrompt` for any other or missing category; and with any other category in
its place the request parameters and the whole run of `handleSubmit` on a given stream
are the same. -/
theorem category_selects_endpoint (parse : String → Decoded) (values : FormValues)
    (c : OptimizerState) (events : List StreamEvent) (ending : StreamEnd)
    (category : Option String) (hvalid : promptMissing values = false) :
    generateCall values = some (generateFunction values, requestParams values) ∧
    (values.optimizationType = some "function-calling" →
      generateFunction values = GenerateFunction.generateFunctionCallingPrompt) ∧
    (values.optimizationType = some "image" →
      generateFunction values = GenerateFunction.generateImagePrompt) ∧
    (values.optimizationType ≠ some "function-calling" →
      values.optimizationType ≠ some "image" →
      generateFunction values = GenerateFunction.generatePrompt) ∧
    requestParams { values with optimizationType := category } = requestParams values ∧
    handleSubmit parse { values with optimizationType := category } c events ending
      = handleSubmit parse values c events ending := by
  refine ⟨?_, ?_, ?_, ?_, rfl, rfl⟩
  · simp [generateCall, hvalid]
  · intro h
    simp [generateFunction, h]
  · intro h
    simp [generateFunction, h]
  · intro h1 h2
    simp [generateFunction, h1, h2]

/-- The poem request with no category, against the category `image`. -/
theorem category_selects_endpoint_witness :
    promptMissing poemRequest = false ∧
    generateCall poemRequest
      = some (GenerateFunction.generatePrompt, requestParams poemRequest) ∧
    generateCall { poemRequest with optimizationType := some "image" }
      = some (GenerateFunction.generateImagePrompt, requestParams poemRequest) ∧
    handleSubmit sampleParse { poemRequest with optimizationType := some "image" }
        initialState [chunk "\x7b\"done\":true\x7d"] StreamEnd.returned
      = handleSubmit sampleParse poemRequest initialState
        [chunk "\x7b\"done\":true\x7d"] StreamEnd.returned :=
  ⟨by decide, rfl, rfl,
    (category_selects_endpoint sampleParse poemRequest initialState
      [chunk "\x7b\"done\":true\x7d"] StreamEnd.returned (some "image")
      (by decide)).2.2.2.2.2⟩

/-- C22: cancellation is not reported as a failure.  `handleGenerationCancel` reports
nothing; when the stream throws an error named `AbortError` before any terminal outcome,
`handleSubmit` ends as if the stream had returned: nothing is reported and `step` and
`isGenerating` stay 1 and true; when it throws an error of any other name, the generic
message is reported and the session ends with `step` 0 and `isGenerating` false. -/
theorem abort_is_not_a_failure (parse : String → Decoded) (values : FormValues)
    (c : OptimizerState) (events : List StreamEvent) (name : String)
    (hvalid : promptMissing values = false)
    (hopen : (consume parse c.isDeepReasoning (startGeneration c) events).2 = false) :
    (handleGenerationCancel c).notices = c.notices ∧
    onStreamError c "AbortError" = c ∧
    (handleSubmit parse values c events (StreamEnd.threw "AbortError")
        = handleSubmit parse values c events StreamEnd.returned ∧
      (handleSubmit parse values c events (StreamEnd.threw "AbortError")).notices = c.notices ∧
      (handleSubmit parse values c events (StreamEnd.threw "AbortError")).step = 1 ∧
      (handleSubmit parse values c events (StreamEnd.threw "AbortError")).isGenerating
        = true) ∧
    (name ≠ "AbortError" →
      (handleSubmit parse values c events (StreamEnd.threw name)).notices
        = c.notices ++ [Notice.error "生成失败，请稍后重试"] ∧
      (handleSubmit parse values c events (StreamEnd.threw name)).step = 0 ∧
      (handleSubmit parse values c events (StreamEnd.threw name)).isGenerating = false) := by
  have h := consume_open parse c.isDeepReasoning events (startGeneration c) hopen
  unfold phaseCells at h
  simp only [Prod.mk.injEq] at h
  have hn : (startGeneration c).notices = c.notices := rfl
  refine ⟨?_, ?_, ⟨?_, ?_, ?_, ?_⟩, ?_⟩
  · obtain ⟨_, _, _, _, _, _, _, ctl, _⟩ := c
    cases ctl <;> rfl
  · simp [onStreamError]
  · unfold handleSubmit runStream
    simp [hvalid, hopen, onStreamError]
  · unfold handleSubmit runStream
    simp [hvalid, hopen, onStreamError, releaseController, h.2.2, hn]
  · have h1 : (consume parse c.isDeepReasoning (startGeneration c) events).1.step = 1 := h.1
    unfold handleSubmit runStream
    simp [hvalid, hopen, onStreamError, releaseController, h1]
  · have h2 : (consume parse c.isDeepReasoning (startGeneration c) events).1.isGenerating
        = true := h.2.1
    unfold handleSubmit runStream
    simp [hvalid, hopen, onStreamError, releaseController, h2]
  · intro hname
    unfold handleSubmit runStream
    simp [hvalid, hopen, onStreamError, hname, releaseController, h.2.2, hn]

/-- After the frame `message "partial"` the stream throws `AbortError`, or `TypeError`. -/
theorem abort_is_not_a_failure_witness :
    promptMissing poemRequest = false ∧
    (consume sampleParse initialState.isDeepReasoning (startGeneration initialState)
        [chunk "\x7b\"type\":\"message\",\"message\":\"partial\"\x7d"]).2 = false ∧
    phaseCells (handleSubmit sampleParse poemRequest initialState
        [chunk "\x7b\"type\":\"message\",\"message\":\"partial\"\x7d"]
        (StreamEnd.threw "AbortError")) = (1, true, []) ∧
    ((handleSubmit sampleParse poemRequest initialState
        [chunk "\x7b\"type\":\"message\",\"message\":\"partial\"\x7d"]
        (StreamEnd.threw "TypeError")).notices
        = initialState.notices ++ [Notice.error "生成失败，请稍后重试"] ∧
      (handleSubmit sampleParse poemRequest initialState
        [chunk "\x7b\"type\":\"message\",\"message\":\"partial\"\x7d"]
        (StreamEnd.threw "TypeError")).step = 0 ∧
      (handleSubmit sampleParse poemRequest initialState
        [chunk "\x7b\"type\":\"message\",\"message\":\"partial\"\x7d"]
        (StreamEnd.threw "TypeError")).isGenerating = false) :=
  ⟨by decide, rfl, rfl,
    (abort_is_not_a_failure sampleParse poemRequest initialState
      [chunk "\x7b\"type\":\"message\",\"message\":\"partial\"\x7d"] "TypeError"
      (by decide) rfl).2.2.2 (by decide)⟩

/-- Lines 164-169 by truthiness: for every valid form input the request handed to the
generate function carries `modelId` and no `chatModel` when `values.modelId` is truthy
(a number other than 0), `chatModel` and no `modelId` when `values.modelId` is falsy and
`values.chatModel` is truthy, neither when both are falsy; both are never present. -/
theorem selectors_by_truthiness (values : FormValues)
    (hvalid : promptMissing values = false) :
    (∃ g, generateCall values = some (g, requestParams values)) ∧
    (truthyNumber values.modelId = true →
      (requestParams values).modelId = values.modelId ∧
      (requestParams values).chatModel = none) ∧
    (truthyNumber values.modelId = false → truthy values.chatModel = true →
      (requestParams values).chatModel = values.chatModel ∧
      (requestParams values).modelId = none) ∧
    (truthyNumber values.modelId = false → truthy values.chatModel = false →
      (requestParams values).modelId = none ∧ (requestParams values).chatModel = none) ∧
    ¬ ((requestParams values).modelId.isSome = true ∧
        (requestParams values).chatModel.isSome = true) := by
  refine ⟨⟨generateFunction values, by simp [generateCall, hvalid]⟩, ?_, ?_, ?_, ?_⟩
  · intro h
    simp [requestParams, h]
  · intro h1 h2
    simp [requestParams, h1, h2]
  · intro h1 h2
    simp [requestParams, h1, h2]
  · unfold requestParams
    cases h1 : truthyNumber values.modelId <;> simp

/-- C23, evaluated on the code: a selected custom model does not always take precedence.
With the model whose id is 0 picked in the custom-model select and the initial chat model
`gpt-4` still in the form, the input is valid and one generate call is made, but the test
`if (values.modelId)` is false for the number 0: the request carries `chatModel` `gpt-4`
and no `modelId`.  With the model whose id is 7 picked instead, the request carries
`modelId` 7 and no `chatModel`. -/
theorem model_zero_loses_precedence :
    promptMissing { poemRequest with modelId := some 0, chatModel := some "gpt-4" } = false ∧
    generateCall { poemRequest with modelId := some 0, chatModel := some "gpt-4" }
      = some (GenerateFunction.generatePrompt,
          requestParams { poemRequest with modelId := some 0, chatModel := some "gpt-4" }) ∧
    (requestParams { poemRequest with modelId := some 0, chatModel := some "gpt-4" }).modelId
      = none ∧
    (requestParams { poemRequest with modelId := some 0, chatModel := some "gpt-4" }).chatModel
      = some "gpt-4" ∧
    (requestParams { poemRequest with modelId := some 7, chatModel := some "gpt-4" }).modelId
      = some 7 ∧
    (requestParams { poemRequest with modelId := some 7, chatModel := some "gpt-4" }).chatModel
      = none :=
  ⟨by decide, rfl, rfl, rfl, rfl, rfl⟩

end PromptOptimizer

namespace PromptOptimizer

/-! ### Chunks that change nothing, events named `done` -/

/-- C27: a chunk that decodes but is not a recognised frame is dropped.  For an event not
named `done` whose data decodes to a value with no truthy `done` field, the iteration
leaves every state cell unchanged and the loop goes on, both when the type is none of the
eight recognised ones (or is missing), whatever message it carries, and when the type is
`message`, `deep-reasoning` or `evaluate` and the message is empty or missing. -/
theorem unrecognised_frame_dropped (parse : String → Decoded) (captured : Bool)
    (c : OptimizerState) (ev : StreamEvent) (f : Frame) (hc : abortRequested c = false)
    (hf : frameOf parse ev = some f) (hname : ev.event ≠ some "done")
    (hdone : f.done = false) :
    ((∀ t ∈ recognisedTypes, f.type ≠ some t) →
      iteration parse captured c ev = (c, false)) ∧
    ((f.type = some "message" ∨ f.type = some "deep-reasoning" ∨ f.type = some "evaluate") →
      f.message = none → iteration parse captured c ev = (c, false)) := by
  rw [iteration_of_frame parse captured c ev f hc hf]
  constructor
  · intro h
    have h1 := h "deep-reasoning-start" (by simp [recognisedTypes])
    have h2 := h "deep-reasoning-end" (by simp [recognisedTypes])
    have h3 := h "deep-reasoning" (by simp [recognisedTypes])
    have h4 := h "evaluate-start" (by simp [recognisedTypes])
    have h5 := h "evaluate-end" (by simp [recognisedTypes])
    have h6 := h "evaluate" (by simp [recognisedTypes])
    have h7 := h "error" (by simp [recognisedTypes])
    have h8 := h "message" (by simp [recognisedTypes])
    unfold applyFrame
    simp only [h1, h2, h3, h4, h5, h6, h7, h8, if_false]
    exact checkDone_of_not_done ev f c hdone hname
  · intro hty hm
    unfold applyFrame
    rcases hty with h | h | h <;> simp [h, hm, checkDone_of_not_done ev f c hdone hname]

/-- The frame of type `ping` with the message `hello`, and the `message` frame with an
empty message. -/
theorem unrecognised_frame_dropped_witness :
    abortRequested (startGeneration initialState) = false ∧
    frameOf sampleParse (chunk "\x7b\"type\":\"ping\",\"message\":\"hello\"\x7d")
      = some (textFrame "ping" "hello") ∧
    (∀ t ∈ recognisedTypes, (textFrame "ping" "hello").type ≠ some t) ∧
    iteration sampleParse false (startGeneration initialState)
        (chunk "\x7b\"type\":\"ping\",\"message\":\"hello\"\x7d")
      = (startGeneration initialState, false) ∧
    iteration sampleParse false (startGeneration initialState)
        (chunk "\x7b\"type\":\"message\",\"message\":\"\"\x7d")
      = (startGeneration initialState, false) :=
  ⟨rfl, rfl, by decide,
    (unrecognised_frame_dropped sampleParse false (startGeneration initialState)
      (chunk "\x7b\"type\":\"ping\",\"message\":\"hello\"\x7d")
      (textFrame "ping" "hello") rfl rfl (by decide) rfl).1 (by decide),
    (unrecognised_frame_dropped sampleParse false (startGeneration initialState)
      (chunk "\x7b\"type\":\"message\",\"message\":\"\"\x7d")
      { type := some "message", message := none, error := none, done := false }
      rfl rfl (by decide) rfl).2 (Or.inl rfl) rfl⟩

/-- C28: an event named `done` completes the session only through its data.  In a
generating state, an event named `done` with missing or empty data leaves the state
unchanged and the loop goes on; one whose data is text that `JSON.parse` rejects, other
than `[DONE]`, has that text appended to `generatedPrompt` or to `deepReasoningContent`,
nothing else changes and the loop goes on; and whenever such an event ends the loop its
data is non-empty and either decodes or is `[DONE]`. -/
theorem done_event_needs_data (parse : String → Decoded) (captured : Bool)
    (c : OptimizerState) (ev : StreamEvent) (hc : Generating c)
    (hname : ev.event = some "done") :
    ((ev.data = none ∨ ev.data = some "") → iteration parse captured c ev = (c, false)) ∧
    (∀ d, ev.data = some d → d ≠ "" → parse d = Decoded.syntaxError → d ≠ "[DONE]" →
      (iteration parse captured c ev
          = ({ c with generatedPrompt := c.generatedPrompt ++ d }, false) ∨
        iteration parse captured c ev
          = ({ c with deepReasoningContent := c.deepReasoningContent ++ d }, false)) ∧
      Generating (iteration parse captured c ev).1) ∧
    ((iteration parse captured c ev).2 = true →
      ∃ d, ev.data = some d ∧ d ≠ "" ∧ ((∃ f, parse d = Decoded.value f) ∨ d = "[DONE]")) := by
  have _ := hname
  refine ⟨?_, ?_, ?_⟩
  · intro h
    unfold iteration
    rcases h with h | h <;> simp [hc.2.2, h]
  · intro d hd hne hp hs
    rw [iteration_not_json parse captured c ev d hc.2.2 hd hne hp]
    unfold fallback
    simp only [hs, ne_eq, not_false_eq_true, if_true]
    cases captured
    · exact ⟨Or.inl rfl, hc⟩
    · exact ⟨Or.inr rfl, hc⟩
  · intro hb
    unfold iteration at hb
    simp only [hc.2.2, Bool.false_eq_true, if_false] at hb
    cases hd : ev.data with
    | none => simp [hd] at hb
    | some d =>
      simp only [hd] at hb
      by_cases hd0 : d = ""
      · simp [hd0] at hb
      · refine ⟨d, rfl, hd0, ?_⟩
        simp only [hd0, if_false] at hb
        cases hp : parse d with
        | value f => exact Or.inl ⟨f, rfl⟩
        | syntaxError =>
          right
          simp only [hp, fallback] at hb
          by_contra hs
          cases captured <;> simp [hs] at hb
        | nullValue =>
          right
          simp only [hp, fallback] at hb
          by_contra hs
          cases captured <;> simp [hs] at hb

/-- An event named `done` with no data, and one carrying `plain text`. -/
theorem done_event_needs_data_witness :
    Generating (startGeneration initialState) ∧
    iteration sampleParse false (startGeneration initialState)
        { event := some "done", data := none }
      = (startGeneration initialState, false) ∧
    visible (iteration sampleParse false (startGeneration initialState)
        { event := some "done", data := some "plain text" }).1
      = (1, true, "plain text", "", "", false, false) :=
  have hc : Generating (startGeneration initialState) := ⟨rfl, rfl, rfl⟩
  ⟨hc,
    (done_event_needs_data sampleParse false (startGeneration initialState)
      { event := some "done", data := none } hc rfl).1 (Or.inl rfl),
    rfl⟩

end PromptOptimizer

namespace PromptOptimizer

/-! ### Invariants of the mounted component -/

theorem resume_ui (P : OptimizerState → Prop) (p : Page) (i : Nat)
    (k : Call → OptimizerState → OptimizerState × Bool) (hp : P p.ui)
    (hk : ∀ call, P (k call p.ui).1) : P (p.resume i k).ui := by
  unfold Page.resume
  cases p.calls.get? i with
  | none => exact hp
  | some call =>
    by_cases ha : call.awaiting = true
    · simp only [ha, if_true]; exact hk call
    · simp only [ha, Bool.false_eq_true, if_false]; exact hp

theorem run_ui (P : OptimizerState → Prop) (parse : String → Decoded)
    (hstep : ∀ (p : Page) (a : Action), P p.ui → P (Page.advance parse p a).ui) :
    ∀ (actions : List Action) (p : Page), P p.ui → P (Page.run parse p actions).ui
  | [], _, hp => hp
  | a :: rest, p, hp => by
    unfold Page.run
    rw [List.foldl_cons]
    exact run_ui P parse hstep rest (Page.advance parse p a) (hstep p a hp)

/-- The reference is null or holds a controller that has not been aborted. -/
theorem iteration_abortController (parse : String → Decoded) (captured : Bool)
    (c : OptimizerState) (ev : StreamEvent) :
    (iteration parse captured c ev).1.abortController = c.abortController := by
  unfold iteration
  by_cases ha : abortRequested c = true
  · simp [ha]
  · simp only [ha, Bool.false_eq_true, if_false]
    cases ev.data with
    | none => rfl
    | some d =>
      by_cases hd0 : d = ""
      · simp [hd0]
      · simp only [hd0, if_false]
        have hfb : (fallback captured c d).1.abortController = c.abortController := by
          unfold fallback
          split_ifs <;> rfl
        cases parse d with
        | value f => exact applyFrame_abortController c ev f
        | syntaxError => exact hfb
        | nullValue => exact hfb

theorem onStreamError_abortController (c : OptimizerState) (name : String) :
    (onStreamError c name).abortController = c.abortController := by
  unfold onStreamError
  split_ifs <;> rfl

theorem resetState_abortController (c : OptimizerState) :
    (resetState c).abortController = none := by
  obtain ⟨_, _, _, _, _, _, _, ctl, _⟩ := c
  cases ctl <;> rfl

theorem handleGenerationCancel_abortController (c : OptimizerState) :
    (handleGenerationCancel c).abortController = none := by
  obtain ⟨_, _, _, _, _, _, _, ctl, _⟩ := c
  cases ctl <;> rfl

theorem advance_controller (parse : String → Decoded) (p : Page) (a : Action)
    (hp : p.ui.abortController = none ∨ p.ui.abortController = some { aborted := false }) :
    (Page.advance parse p a).ui.abortController = none ∨
      (Page.advance parse p a).ui.abortController = some { aborted := false } := by
  cases a with
  | submit values =>
    simp only [Page.advance]
    split_ifs
    · exact hp
    · exact Or.inr rfl
    · exact hp
  | yields i ev =>
    simp only [Page.advance]
    apply resume_ui (fun c => c.abortController = none ∨
      c.abortController = some { aborted := false }) p i _ hp
    intro call
    split_ifs
    · exact Or.inl rfl
    · show (iteration parse call.captured p.ui ev).1.abortController = none ∨ _
      rw [iteration_abortController]; exact hp
  | returns i =>
    simp only [Page.advance]
    exact resume_ui (fun c => c.abortController = none ∨
      c.abortController = some { aborted := false }) p i _ hp (fun _ => Or.inl rfl)
  | throws i name =>
    simp only [Page.advance]
    exact resume_ui (fun c => c.abortController = none ∨
      c.abortController = some { aborted := false }) p i _ hp (fun _ => Or.inl rfl)
  | cancelGeneration =>
    simp only [Page.advance]
    split_ifs
    · exact Or.inl (handleGenerationCancel_abortController p.ui)
    · exact hp
  | close =>
    simp only [Page.advance, handleCancel]
    split_ifs
    · exact hp
    · exact Or.inl (resetState_abortController p.ui)
  | reoptimize =>
    simp only [Page.advance]
    split_ifs
    · exact hp
    · exact hp

/-- C25: in every state reachable from the mounted component through form submissions,
stream events, stream ends and errors, `handleGenerationCancel`, `handleCancel` (and the
`resetState` they call) and re-optimize, `abortControllerRef.current` is null or a
controller that has not been aborted; so the cancellation check of the loop,
`abortControllerRef.current?.signal.aborted`, is falsy whenever it is evaluated.  Each
handler keeps this by itself, from any state in which it holds. -/
theorem controller_never_aborted (parse : String → Decoded) (actions : List Action) :
    ((Page.run parse Page.initial actions).ui.abortController = none ∨
      (Page.run parse Page.initial actions).ui.abortController
        = some { aborted := false }) ∧
    abortRequested (Page.run parse Page.initial actions).ui = false ∧
    (∀ c : OptimizerState, abortRequested c = false →
      abortRequested (startGeneration c) = false ∧
      (∀ captured ev, abortRequested (iteration parse captured c ev).1 = false) ∧
      abortRequested (releaseController c) = false ∧
      (∀ name, abortRequested (onStreamError c name) = false) ∧
      abortRequested (resetState c) = false ∧
      abortRequested (handleCancel c) = false ∧
      abortRequested (handleGenerationCancel c) = false) := by
  have h := run_ui (fun c => c.abortController = none ∨
      c.abortController = some { aborted := false }) parse (advance_controller parse)
    actions Page.initial (Or.inl rfl)
  refine ⟨h, ?_, ?_⟩
  · unfold abortRequested
    rcases h with h | h <;> rw [h]
  · intro c hc
    have hreset : abortRequested (resetState c) = false := by
      unfold abortRequested; rw [resetState_abortController]
    refine ⟨rfl, ?_, rfl, ?_, hreset, ?_, abortRequested_handleGenerationCancel c⟩
    · intro captured ev
      unfold abortRequested at hc ⊢
      rw [iteration_abortController]; exact hc
    · intro name
      unfold abortRequested at hc ⊢
      rw [onStreamError_abortController]; exact hc
    · unfold handleCancel
      split_ifs
      · exact hc
      · exact hreset

theorem checkDone_phase (ev : StreamEvent) (f : Frame) (c : OptimizerState) :
    ((checkDone ev f c).1.step = c.step ∧ (checkDone ev f c).1.isGenerating = c.isGenerating) ∨
    ((checkDone ev f c).1.step = 2 ∧ (checkDone ev f c).1.isGenerating = false) := by
  unfold checkDone
  split_ifs
  · exact Or.inr ⟨rfl, rfl⟩
  · exact Or.inl ⟨rfl, rfl⟩

theorem checkDone_phaseStep (ev : StreamEvent) (f : Frame) (c r : OptimizerState)
    (hs : r.step = c.step) (hg : r.isGenerating = c.isGenerating) :
    PhaseStep c (checkDone ev f r).1 := by
  rcases checkDone_phase ev f r with h | h
  · exact Or.inl ⟨h.1.trans hs, h.2.trans hg⟩
  · exact Or.inr (Or.inr h)

theorem applyFrame_phaseStep (c : OptimizerState) (ev : StreamEvent) (f : Frame) :
    PhaseStep c (applyFrame c ev f).1 := by
  unfold applyFrame
  split_ifs <;> (try split) <;>
    first
      | exact checkDone_phaseStep ev f c _ rfl rfl
      | exact Or.inr (Or.inl ⟨rfl, rfl⟩)

theorem fallback_phaseStep (captured : Bool) (c : OptimizerState) (d : String) :
    PhaseStep c (fallback captured c d).1 := by
  unfold fallback
  split_ifs
  · exact Or.inl ⟨rfl, rfl⟩
  · exact Or.inl ⟨rfl, rfl⟩
  · exact Or.inr (Or.inr ⟨rfl, rfl⟩)

theorem iteration_phaseStep (parse : String → Decoded) (captured : Bool)
    (c : OptimizerState) (ev : StreamEvent) :
    PhaseStep c (iteration parse captured c ev).1 := by
  unfold iteration
  by_cases ha : abortRequested c = true
  · simp only [ha, if_true]; exact Or.inl ⟨rfl, rfl⟩
  · simp only [ha, Bool.false_eq_true, if_false]
    cases ev.data with
    | none => exact Or.inl ⟨rfl, rfl⟩
    | some d =>
      by_cases hd0 : d = ""
      · simp only [hd0, if_true]; exact Or.inl ⟨rfl, rfl⟩
      · simp only [hd0, if_false]
        cases parse d with
        | value f => exact applyFrame_phaseStep c ev f
        | syntaxError => exact fallback_phaseStep captured c d
        | nullValue => exact fallback_phaseStep captured c d

theorem onStreamError_phaseStep (c : OptimizerState) (name : String) :
    PhaseStep c (onStreamError c name) := by
  unfold onStreamError
  split_ifs
  · exact Or.inl ⟨rfl, rfl⟩
  · exact Or.inr (Or.inl ⟨rfl, rfl⟩)

theorem consistent_of_phaseStep (c r : OptimizerState) (hc : PhaseConsistent c)
    (h : PhaseStep c r) : PhaseConsistent r := by
  unfold PhaseConsistent at hc ⊢
  rcases h with ⟨hs, hg⟩ | ⟨hs, hg⟩ | ⟨hs, hg⟩
  · rw [hs, hg]; exact hc
  · rw [hs, hg]; simp
  · rw [hs, hg]; simp

theorem consistent_reset (c : OptimizerState) : PhaseConsistent (resetState c) := by
  obtain ⟨_, _, _, _, _, _, _, ctl, _⟩ := c
  cases ctl <;> simp [PhaseConsistent, resetState, abortAndClear]

theorem consistent_cancel (c : OptimizerState) :
    PhaseConsistent (handleGenerationCancel c) := by
  obtain ⟨_, _, _, _, _, _, _, ctl, _⟩ := c
  cases ctl <;> simp [PhaseConsistent, handleGenerationCancel, resetState, abortAndClear]

theorem advance_consistent (parse : String → Decoded) (p : Page) (a : Action)
    (hp : PhaseConsistent p.ui) : PhaseConsistent (Page.advance parse p a).ui := by
  cases a with
  | submit values =>
    simp only [Page.advance]
    split_ifs
    · exact hp
    · simp [PhaseConsistent, startGeneration]
    · exact hp
  | yields i ev =>
    simp only [Page.advance]
    apply resume_ui PhaseConsistent p i _ hp
    intro call
    have h := consistent_of_phaseStep p.ui _ hp (iteration_phaseStep parse call.captured p.ui ev)
    split_ifs
    · exact h
    · exact h
  | returns i =>
    simp only [Page.advance]
    exact resume_ui PhaseConsistent p i _ hp (fun _ => hp)
  | throws i name =>
    simp only [Page.advance]
    exact resume_ui PhaseConsistent p i _ hp
      (fun _ => consistent_of_phaseStep p.ui _ hp (onStreamError_phaseStep p.ui name))
  | cancelGeneration =>
    simp only [Page.advance]
    split_ifs
    · exact consistent_cancel p.ui
    · exact hp
  | close =>
    simp only [Page.advance, handleCancel]
    split_ifs
    · exact hp
    · exact consistent_reset p.ui
  | reoptimize =>
    simp only [Page.advance]
    split_ifs with h2
    · unfold PhaseConsistent at hp ⊢
      have hg : p.ui.isGenerating = false := by
        cases hgen : p.ui.isGenerating
        · rfl
        · have := hp.1.mp hgen
          omega
      simp [hg]
    · exact hp

/-- C26: in every state reachable from the initial state through form submissions, stream
events, stream ends and thrown stream errors, `handleGenerationCancel`, `handleCancel`
(and the `resetState` they call) and re-optimize from `step` 2, `isGenerating` is true if
and only if `step` is 1, and `step` is 0, 1 or 2. -/
theorem generating_iff_step_one (parse : String → Decoded) (actions : List Action) :
    ((Page.run parse Page.initial actions).ui.isGenerating = true ↔
      (Page.run parse Page.initial actions).ui.step = 1) ∧
    ((Page.run parse Page.initial actions).ui.step = 0 ∨
      (Page.run parse Page.initial actions).ui.step = 1 ∨
      (Page.run parse Page.initial actions).ui.step = 2) :=
  run_ui PhaseConsistent parse (advance_consistent parse) actions Page.initial
    (by simp [PhaseConsistent, Page.initial, initialState])

end PromptOptimizer

namespace PromptEditor

/-! ### The variable list of the editor -/

/-- C24: the default variable cannot be deleted.  For every editor state,
`removeVariable('user_input')` leaves `variableNames` and `variables` unchanged (a warning
is reported); for any other name `n`, `removeVariable(n)` removes every occurrence of `n`
from `variableNames`, keeping the other names with their order and multiplicity, removes
the key `n` from `variables` and leaves the value of every other key unchanged. -/
theorem default_variable_kept (s : EditorState) (n : String) :
    ((removeVariable "user_input" s).variableNames = s.variableNames ∧
      (removeVariable "user_input" s).variableMap = s.variableMap) ∧
    (n ≠ "user_input" →
      n ∉ (removeVariable n s).variableNames ∧
      (removeVariable n s).variableNames = s.variableNames.filter (fun v => decide (v ≠ n)) ∧
      (∀ m, m ≠ n →
        (removeVariable n s).variableNames.count m = s.variableNames.count m) ∧
      (removeVariable n s).variableMap n = none ∧
      (∀ k, k ≠ n → (removeVariable n s).variableMap k = s.variableMap k)) := by
  refine ⟨⟨rfl, rfl⟩, ?_⟩
  intro hn
  have hnames : (removeVariable n s).variableNames
      = s.variableNames.filter (fun v => decide (v ≠ n)) := by
    simp [removeVariable, hn]
  have hmap : (removeVariable n s).variableMap = withoutKey s.variableMap n := by
    simp [removeVariable, hn]
  refine ⟨?_, hnames, ?_, ?_, ?_⟩
  · rw [hnames]
    simp [List.mem_filter]
  · intro m hm
    rw [hnames, List.count_filter]
    simpa using hm
  · rw [hmap]; simp [withoutKey]
  · intro k hk
    rw [hmap]; simp [withoutKey, hk]

/-- The variable `topic` added to the initial state and removed again. -/
theorem default_variable_kept_witness :
    "topic" ≠ "user_input" ∧
    (removeVariable "topic"
        (run initialState [EditorAction.typeName "topic", EditorAction.add])).variableNames
      = ["user_input"] ∧
    (run initialState [EditorAction.typeName "topic", EditorAction.add]).variableNames
      = ["user_input", "topic"] ∧
    (removeVariable "topic"
        (run initialState [EditorAction.typeName "topic", EditorAction.add])).variableMap
      "topic" = none :=
  ⟨by decide, rfl, rfl,
    ((default_variable_kept
      (run initialState [EditorAction.typeName "topic", EditorAction.add]) "topic").2
      (by decide)).2.2.2.1⟩

theorem wellFormed_initial : WellFormed initialState := by
  refine ⟨by simp [initialState], by simp [initialState], ?_, ?_⟩
  · intro n hn
    have hn2 : n = "user_input" := by simpa [initialState] using hn
    subst hn2
    decide
  · intro k
    simp only [initialState, List.mem_singleton]
    by_cases hk : k = "user_input" <;> simp [hk]

theorem wellFormed_addVariable (s : EditorState) (h : WellFormed s) :
    WellFormed (addVariable s) := by
  obtain ⟨hu, hnd, htrim, hkeys⟩ := h
  unfold addVariable
  by_cases h1 : PromptOptimizer.jsTrim s.newVariableName = ""
  · simp only [h1, if_true]; exact ⟨hu, hnd, htrim, hkeys⟩
  · simp only [h1, if_false]
    by_cases h2 : s.newVariableName ∈ s.variableNames
    · simp only [h2, if_true]; exact ⟨hu, hnd, htrim, hkeys⟩
    · simp only [h2, if_false]
      refine ⟨List.mem_append_left _ hu, ?_, ?_, ?_⟩
      · exact List.nodup_append.mpr ⟨hnd, List.nodup_singleton _, by simpa using h2⟩
      · intro n hn
        rcases List.mem_append.mp hn with hn | hn
        · exact htrim n hn
        · have hn2 : n = s.newVariableName := by simpa using hn
          rw [hn2]; exact h1
      · intro k
        simp only [withKey, List.mem_append, List.mem_singleton]
        by_cases hk : k = s.newVariableName
        · simp [hk]
        · simp only [hk, if_false, or_false]; exact hkeys k

theorem wellFormed_removeVariable (name : String) (s : EditorState) (h : WellFormed s) :
    WellFormed (removeVariable name s) := by
  obtain ⟨hu, hnd, htrim, hkeys⟩ := h
  unfold removeVariable
  by_cases h1 : name = "user_input"
  · simp only [h1, if_true]; exact ⟨hu, hnd, htrim, hkeys⟩
  · simp only [h1, if_false]
    refine ⟨?_, hnd.filter _, ?_, ?_⟩
    · simp only [List.mem_filter]
      exact ⟨hu, by simpa using fun h => h1 h.symm⟩
    · intro n hn
      exact htrim n (List.mem_of_mem_filter hn)
    · intro k
      simp only [withoutKey, List.mem_filter]
      by_cases hk : k = name
      · simp [hk]
      · simp only [hk, if_false]
        rw [hkeys k]
        simp [hk]

theorem wellFormed_advance (s : EditorState) (a : EditorAction) (h : WellFormed s) :
    WellFormed (advance s a) := by
  cases a with
  | typeName text => exact h
  | add => exact wellFormed_addVariable s h
  | remove name => exact wellFormed_removeVariable name s h
  | edit name value =>
    simp only [advance]
    split_ifs with hmem
    · obtain ⟨hu, hnd, htrim, hkeys⟩ := h
      refine ⟨hu, hnd, htrim, ?_⟩
      intro k
      simp only [withKey]
      by_cases hk : k = name
      · simp [hk, hmem]
      · simp only [hk, if_false]; exact hkeys k
    · exact h

theorem wellFormed_run : ∀ (actions : List EditorAction) (s : EditorState),
    WellFormed s → WellFormed (run s actions)
  | [], _, h => h
  | a :: rest, s, h => by
    unfold run
    rw [List.foldl_cons]
    exact wellFormed_run rest (advance s a) (wellFormed_advance s a h)

/-- C29: in every editor state reachable from the initial state through typing a name,
`addVariable`, `removeVariable` and edits of the value of a listed variable,
`variableNames` contains `user_input`, contains no name twice and no name that is empty
after trimming, and the keys of `variables` are exactly the names of `variableNames`. -/
theorem variable_list_well_formed (actions : List EditorAction) :
    "user_input" ∈ (run initialState actions).variableNames ∧
    (run initialState actions).variableNames.Nodup ∧
    (∀ n ∈ (run initialState actions).variableNames, PromptOptimizer.jsTrim n ≠ "") ∧
    (∀ k, ((run initialState actions).variableMap k).isSome = true ↔
      k ∈ (run initialState actions).variableNames) :=
  wellFormed_run actions initialState wellFormed_initial

end PromptEditor

namespace AuthStore

/-! ### The auth store -/

theorem token_implies_authenticated_run : ∀ (actions : List StoreAction) (s : AuthState),
    (s.token ≠ none → s.isAuthenticated = true) →
    ((run s actions).token ≠ none → (run s actions).isAuthenticated = true)
  | [], _, h => h
  | a :: rest, s, h => by
    unfold run
    rw [List.foldl_cons]
    apply token_implies_authenticated_run rest (advance s a)
    cases a with
    | login token user loginType => intro _; rfl
    | logout => intro hne; exact absurd rfl hne
    | updateUser user => exact h

/-- C30: in every store state reachable from the initial state through `login`, `logout`
and `updateUser`, a non-null token implies `isAuthenticated`; so `checkAuth()` is truthy
exactly when `getAuthHeader()` returns an `Authorization` header, and that header is
`Bearer ` followed by the stored token. -/
theorem token_implies_authenticated (actions : List StoreAction) :
    ((run initialState actions).token ≠ none →
      (run initialState actions).isAuthenticated = true) ∧
    ((checkAuth (run initialState actions)).truthy = true ↔
      ∃ h, getAuthHeader (run initialState actions) = [("Authorization", h)]) ∧
    (∀ h, getAuthHeader (run initialState actions) = [("Authorization", h)] →
      ∃ t, (run initialState actions).token = some t ∧ h = "Bearer " ++ t) := by
  have hinv := token_implies_authenticated_run actions initialState
    (fun hne => absurd rfl hne)
  generalize run initialState actions = s at hinv ⊢
  obtain ⟨token, auth, user, loginType⟩ := s
  simp only at hinv
  refine ⟨hinv, ?_, ?_⟩
  · cases token with
    | none =>
      cases auth <;>
        simp [checkAuth, getAuthHeader, CheckValue.truthy, PromptOptimizer.truthy]
    | some t =>
      have ha : auth = true := hinv (by simp)
      subst ha
      by_cases ht : t = ""
      · simp [checkAuth, getAuthHeader, CheckValue.truthy, PromptOptimizer.truthy, ht]
      · simp [checkAuth, getAuthHeader, CheckValue.truthy, PromptOptimizer.truthy, ht]
  · intro h hh
    cases token with
    | none => simp [getAuthHeader] at hh
    | some t =>
      by_cases ht : t = ""
      · simp [getAuthHeader, ht] at hh
      · refine ⟨t, rfl, ?_⟩
        simp [getAuthHeader, ht] at hh
        exact hh.symm

end AuthStore
